import Mathlib

/-!
Verification of the Pulse Check API watchdog engine.

The development shallowly embeds the repository's monitor state machine:
`routes/monitors.py` (register / heartbeat / pause / history endpoints),
`timer.py` (the countdown coroutine), `database.py` (the two in-memory
dictionaries) and the monolithic duplicate in `main.py`.

Modelling conventions:
- Python dicts (`monitors_db`, `active_tasks`) become association lists over
  `String` keys with first-match lookup and replace-or-append update, which
  matches insertion-ordered dict semantics.
- `datetime.utcnow().isoformat()` timestamps become abstract `Nat` instants;
  wall-clock monotonicity is captured by the `clock` field of the system
  state and the side condition on the `Reachable` relation.
- Each `asyncio.Task` created by `start_countdown` becomes a `TimerTask`
  record stored append-only in `SysState.tasks`; its index in that list is
  the task identity.  `cancelled` models `task.cancel()` delivered inside
  `asyncio.sleep`; `fired` records that the post-sleep body already ran.
  Each HTTP handler body and each post-sleep continuation is free of await
  points in the source, so each is one atomic step of the machine.
- `fire_alert` / `simulate_email_alert` invocations are logged in
  `SysState.alerts` as `(device_id, alert_email, timestamp)` triples.
-/

namespace PulseCheck

/-- Monitor status: the `"active" | "paused" | "down"` strings stored in
`monitors_db[...]["status"]`. -/
inductive Status where
  | active
  | paused
  | down
deriving DecidableEq

/-- The string stored in the Python record for each status value. -/
def Status.str : Status → String
  | .active => "active"
  | .paused => "paused"
  | .down => "down"

/-- One entry of `heartbeat_history`, as appended by the heartbeat handler:
`{"received_at": now, "event": "heartbeat", "timer_reset_to": timeout}`. -/
structure HeartbeatRecord where
  received_at : Nat
  event : String
  timer_reset_to : Int
deriving DecidableEq

/-- The monitor record stored in `monitors_db`, with the fields written by
`create_monitor`. -/
structure Monitor where
  id : String
  timeout : Int
  alert_email : String
  status : Status
  created_at : Nat
  last_heartbeat : Option Nat
  heartbeat_history : List HeartbeatRecord
deriving DecidableEq

/-- One asyncio task created by `asyncio.create_task(start_countdown(...))`.
`cancelled` means `.cancel()` was delivered while the coroutine slept;
`fired` means the post-sleep body already executed. -/
structure TimerTask where
  device_id : String
  timeout : Int
  cancelled : Bool
  fired : Bool
deriving DecidableEq

/-- A task is live when it is still sleeping: neither cancelled nor
completed. -/
def TimerTask.live (t : TimerTask) : Bool :=
  !t.cancelled && !t.fired

/-- `fastapi.HTTPException(status_code, detail)`. -/
structure HTTPException where
  status_code : Nat
  detail : String
deriving DecidableEq

/-- Request body of `POST /monitors` (`models.MonitorCreate`). -/
structure MonitorCreate where
  id : String
  timeout : Int
  alert_email : String
deriving DecidableEq

/-- The whole process state: the two dictionaries of `database.py`, the
append-only list of countdown tasks ever created, the log of Alert Sink
invocations, and the current wall-clock instant. -/
structure SysState where
  monitors_db : List (String × Monitor)
  tasks : List TimerTask
  active_tasks : List (String × Nat)
  alerts : List (String × String × Nat)
  clock : Nat
deriving DecidableEq

/-- Dict lookup `l[k]`: first binding wins, like a Python dict read. -/
def findKey {α : Type} (l : List (String × α)) (k : String) : Option α :=
  match l with
  | [] => none
  | kv :: rest => if kv.1 = k then some kv.2 else findKey rest k

/-- Dict write `l[k] = v`: replace the existing binding in place, else
append — insertion-ordered dict semantics. -/
def setKey {α : Type} (l : List (String × α)) (k : String) (v : α) :
    List (String × α) :=
  match l with
  | [] => [(k, v)]
  | kv :: rest => if kv.1 = k then (k, v) :: rest else kv :: setKey rest k v

/-- Number of bindings for key `k` (for the duplicate-registration claim). -/
def countKey {α : Type} (l : List (String × α)) (k : String) : Nat :=
  (l.filter (fun kv => kv.1 = k)).length

/-- `task.cancel()` on the task at index `tid`: a no-op on a missing or
already-completed task, otherwise the sleeping coroutine is interrupted. -/
def cancelTask (tasks : List TimerTask) (tid : Nat) : List TimerTask :=
  match tasks[tid]? with
  | none => tasks
  | some t => if t.fired then tasks else tasks.set tid { t with cancelled := true }

/-- Record that the post-sleep body of the task at index `tid` ran. -/
def markFired (tasks : List TimerTask) (tid : Nat) : List TimerTask :=
  match tasks[tid]? with
  | none => tasks
  | some t => tasks.set tid { t with fired := true }

/-- `if device_id in active_tasks: active_tasks[device_id].cancel()` —
shared by the heartbeat and pause handlers. -/
def cancelActive (s : SysState) (device_id : String) : SysState :=
  match findKey s.active_tasks device_id with
  | none => s
  | some tid => { s with tasks := cancelTask s.tasks tid }

/-! ### Response payloads and message strings (routes/monitors.py) -/

/-- Success body of `POST /monitors`. -/
structure CreateResponse where
  message : String
  device_id : String
  timeout : Int
  status : String
deriving DecidableEq

/-- Success body of `POST /monitors/{device_id}/heartbeat`. -/
structure HeartbeatResponse where
  message : String
  device_id : String
  timeout : Int
  last_heartbeat : Nat
  status : String
deriving DecidableEq

/-- Success body of `POST /monitors/{device_id}/pause`. -/
structure PauseResponse where
  message : String
  device_id : String
  status : String
deriving DecidableEq

/-- Body of `GET /monitors/{device_id}/history`. -/
structure HistoryResponse where
  device_id : String
  status : String
  total_heartbeats : Nat
  first_heartbeat : Option Nat
  last_heartbeat : Option Nat
  history : List HeartbeatRecord
deriving DecidableEq

/-- The `status_code=201` argument of `@router.post("", status_code=201)`. -/
def create_status_code : Nat := 201

/-- FastAPI's default success status for the heartbeat route (no
`status_code` override on the decorator). -/
def heartbeat_success_status : Nat := 200

/-- Duplicate-id detail string of the modular register handler. -/
def dup_detail (id : String) : String :=
  s!"Monitor \x27{id}\x27 already exists. Use a unique device ID."

/-- Invalid-timeout detail string of the modular register handler. -/
def invalid_timeout_detail : String :=
  "Timeout must be greater than 0 seconds."

/-- Success message of the modular register handler. -/
def created_msg (id : String) : String :=
  s!"Monitor created for device \x27{id}\x27"

/-- 404 detail of the modular heartbeat handler. -/
def hb_not_found_detail (device_id : String) : String :=
  s!"Monitor \x27{device_id}\x27 not found. Register it first via POST /monitors."

/-- Already-down detail of the modular heartbeat handler. -/
def hb_down_detail (device_id : String) : String :=
  s!"Monitor \x27{device_id}\x27 is already down. Create a new monitor to restart tracking."

/-- Success message of the modular heartbeat handler. -/
def hb_msg (device_id : String) : String :=
  s!"Heartbeat received. Timer reset for \x27{device_id}\x27"

/-- 404 detail of the modular pause handler. -/
def pause_not_found_detail (device_id : String) : String :=
  s!"Monitor \x27{device_id}\x27 not found."

/-- Cannot-pause-down detail of the modular pause handler. -/
def pause_down_detail (device_id : String) : String :=
  s!"Monitor \x27{device_id}\x27 is already down. Cannot pause a down monitor."

/-- Already-paused detail of the modular pause handler. -/
def already_paused_detail (device_id : String) : String :=
  s!"Monitor \x27{device_id}\x27 is already paused."

/-- Success message of the modular pause handler. -/
def paused_msg (device_id : String) : String :=
  s!"Monitor \x27{device_id}\x27 paused. Send a heartbeat to resume."

/-! ### Route handlers (routes/monitors.py) -/

/-- `POST /monitors` — `create_monitor` in `routes/monitors.py`:
reject a duplicate id, reject `timeout <= 0`, store the fresh record,
start a countdown task and install its handle in `active_tasks`. -/
def create_monitor (s : SysState) (monitor : MonitorCreate) (now : Nat) :
    Except HTTPException CreateResponse × SysState :=
  if (findKey s.monitors_db monitor.id).isSome then
    (.error { status_code := 400, detail := dup_detail monitor.id }, s)
  else if monitor.timeout ≤ 0 then
    (.error { status_code := 400, detail := invalid_timeout_detail }, s)
  else
    let record : Monitor :=
      { id := monitor.id, timeout := monitor.timeout,
        alert_email := monitor.alert_email, status := .active,
        created_at := now, last_heartbeat := none, heartbeat_history := [] }
    let task : TimerTask :=
      { device_id := monitor.id, timeout := monitor.timeout,
        cancelled := false, fired := false }
    (.ok { message := created_msg monitor.id, device_id := monitor.id,
           timeout := monitor.timeout, status := "active" },
     { s with
       monitors_db := setKey s.monitors_db monitor.id record,
       tasks := s.tasks ++ [task],
       active_tasks := setKey s.active_tasks monitor.id s.tasks.length })

/-- `POST /monitors/{device_id}/heartbeat` — `heartbeat` in
`routes/monitors.py`: 404 on unknown id, 400 on a down monitor; otherwise
cancel the installed task, start a fresh full-length countdown, set the
record active, stamp `last_heartbeat` and append one history entry. -/
def heartbeat (s : SysState) (device_id : String) (now : Nat) :
    Except HTTPException HeartbeatResponse × SysState :=
  match findKey s.monitors_db device_id with
  | none =>
      (.error { status_code := 404, detail := hb_not_found_detail device_id }, s)
  | some monitor =>
      if monitor.status = .down then
        (.error { status_code := 400, detail := hb_down_detail device_id }, s)
      else
        let s1 := cancelActive s device_id
        let task : TimerTask :=
          { device_id := device_id, timeout := monitor.timeout,
            cancelled := false, fired := false }
        let record : Monitor :=
          { monitor with
            status := .active,
            last_heartbeat := some now,
            heartbeat_history := monitor.heartbeat_history ++
              [{ received_at := now, event := "heartbeat",
                 timer_reset_to := monitor.timeout }] }
        (.ok { message := hb_msg device_id, device_id := device_id,
               timeout := monitor.timeout, last_heartbeat := now,
               status := "active" },
         { s1 with
           tasks := s1.tasks ++ [task],
           active_tasks := setKey s1.active_tasks device_id s1.tasks.length,
           monitors_db := setKey s1.monitors_db device_id record })

/-- `POST /monitors/{device_id}/pause` — `pause_monitor` in
`routes/monitors.py`: 404 on unknown id, 400 on down, 400 on already
paused; otherwise cancel the installed task and set the status paused. -/
def pause_monitor (s : SysState) (device_id : String) :
    Except HTTPException PauseResponse × SysState :=
  match findKey s.monitors_db device_id with
  | none =>
      (.error { status_code := 404, detail := pause_not_found_detail device_id }, s)
  | some monitor =>
      if monitor.status = .down then
        (.error { status_code := 400, detail := pause_down_detail device_id }, s)
      else if monitor.status = .paused then
        (.error { status_code := 400, detail := already_paused_detail device_id }, s)
      else
        let s1 := cancelActive s device_id
        (.ok { message := paused_msg device_id, device_id := device_id,
               status := "paused" },
         { s1 with
           monitors_db := setKey s1.monitors_db device_id
             { monitor with status := .paused } })

/-- `GET /monitors/{device_id}/history` — `get_monitor_history` in
`routes/monitors.py` (read-only). -/
def get_monitor_history (s : SysState) (device_id : String) :
    Except HTTPException HistoryResponse :=
  match findKey s.monitors_db device_id with
  | none => .error { status_code := 404, detail := pause_not_found_detail device_id }
  | some monitor =>
      .ok { device_id := device_id,
            status := monitor.status.str,
            total_heartbeats := monitor.heartbeat_history.length,
            first_heartbeat := monitor.heartbeat_history.head?.map
              (fun r => r.received_at),
            last_heartbeat := monitor.last_heartbeat,
            history := monitor.heartbeat_history }

/-- The post-sleep body of `start_countdown` in `timer.py` (lines 72-94),
run when the countdown at index `tid` completes without cancellation:
re-read the record; if it is still `active`, mark it `down` and call
`fire_alert(device_id, alert_email, timestamp)`, else do nothing.  A
cancelled or already-completed task never runs this body. -/
def expire (s : SysState) (tid : Nat) (now : Nat) : SysState :=
  match s.tasks[tid]? with
  | none => s
  | some t =>
      if t.cancelled || t.fired then s
      else
        match findKey s.monitors_db t.device_id with
        | none => { s with tasks := markFired s.tasks tid }
        | some monitor =>
            if monitor.status = .active then
              { s with
                tasks := markFired s.tasks tid,
                monitors_db := setKey s.monitors_db t.device_id
                  { monitor with status := .down },
                alerts := s.alerts ++ [(t.device_id, monitor.alert_email, now)] }
            else { s with tasks := markFired s.tasks tid }

/-! ### The event machine -/

/-- The atomic events of the engine: the three mutating HTTP handlers and
the expiry of one countdown task. -/
inductive Event where
  | register (monitor : MonitorCreate)
  | heartbeat (device_id : String)
  | pause (device_id : String)
  | expire (tid : Nat)
deriving DecidableEq

/-- One atomic step at wall-clock instant `now`. -/
def step (s : SysState) (e : Event) (now : Nat) : SysState :=
  match e with
  | .register monitor => { (create_monitor s monitor now).2 with clock := now }
  | .heartbeat d => { (heartbeat s d now).2 with clock := now }
  | .pause d => { (pause_monitor s d).2 with clock := now }
  | .expire tid => { expire s tid now with clock := now }

/-- The empty process state at startup. -/
def init : SysState :=
  { monitors_db := [], tasks := [], active_tasks := [], alerts := [], clock := 0 }

/-- Run a timed event trace. -/
def run (s : SysState) : List (Event × Nat) → SysState
  | [] => s
  | en :: tr => run (step s en.1 en.2) tr

/-- States reachable from startup by timed events; the side condition says
wall-clock never runs backwards. -/
inductive Reachable : SysState → Prop where
  | init : Reachable init
  | step {s : SysState} {e : Event} {now : Nat} :
      Reachable s → s.clock ≤ now → Reachable (step s e now)

/-- The timestamps of a trace are non-decreasing, starting from `c`. -/
def timesMonoB : Nat → List (Event × Nat) → Bool
  | _, [] => true
  | c, en :: tr => decide (c ≤ en.2) && timesMonoB en.2 tr

/-- Whether a handler call succeeded. -/
def isOkB {ε α : Type} : Except ε α → Bool
  | .ok _ => true
  | .error _ => false

/-- Number of heartbeat calls for device `d` accepted along a trace. -/
def countAccepted (s : SysState) (d : String) : List (Event × Nat) → Nat
  | [] => 0
  | en :: tr =>
      (match en.1 with
       | .heartbeat d2 =>
           if d2 = d ∧ isOkB (heartbeat s d2 en.2).1 = true then 1 else 0
       | _ => 0) + countAccepted (step s en.1 en.2) d tr

/-- A live countdown task for device `d` occurs in the task list. -/
def TLive (ts : List TimerTask) (d : String) : Prop :=
  ∃ (tid : Nat) (t : TimerTask),
    ts[tid]? = some t ∧ t.device_id = d ∧ t.live = true

/-- A live countdown task exists for device `d`. -/
def LiveFor (s : SysState) (d : String) : Prop :=
  TLive s.tasks d

/-- Length of a device's heartbeat history (0 when unregistered). -/
def histLen (s : SysState) (d : String) : Nat :=
  match findKey s.monitors_db d with
  | none => 0
  | some m => m.heartbeat_history.length

/-- Correlation invariants between monitor records, countdown tasks and the
installed handles of `active_tasks`, maintained at every reachable state. -/
structure TasksInv (s : SysState) : Prop where
  tasksRegistered : ∀ (tid : Nat) (t : TimerTask), s.tasks[tid]? = some t →
    (findKey s.monitors_db t.device_id).isSome = true
  activeValid : ∀ (d : String) (tid : Nat), findKey s.active_tasks d = some tid →
    ∃ t : TimerTask, s.tasks[tid]? = some t ∧ t.device_id = d
  liveIsCurrent : ∀ (tid : Nat) (t : TimerTask), s.tasks[tid]? = some t → t.live = true →
    findKey s.active_tasks t.device_id = some tid
  liveIffActive : ∀ (d : String) (m : Monitor), findKey s.monitors_db d = some m →
    (m.status = Status.active ↔ LiveFor s d)
  firedInstalled : ∀ (d : String) (tid : Nat) (t : TimerTask),
    findKey s.active_tasks d = some tid →
    s.tasks[tid]? = some t → t.fired = true →
    ∃ m : Monitor, findKey s.monitors_db d = some m ∧ m.status = Status.down

/-- History bookkeeping invariants, maintained at every reachable state:
`last_heartbeat` mirrors the last history entry, histories are
chronologically ordered, and all entries precede the current clock. -/
structure HistInv (s : SysState) : Prop where
  lastHB : ∀ d m, findKey s.monitors_db d = some m →
    m.last_heartbeat = m.heartbeat_history.getLast?.map (fun r => r.received_at)
  histSorted : ∀ d m, findKey s.monitors_db d = some m →
    List.Chain' (fun a b => a ≤ b) (m.heartbeat_history.map (fun r => r.received_at))
  histBounded : ∀ d m, findKey s.monitors_db d = some m →
    ∀ r ∈ m.heartbeat_history, r.received_at ≤ s.clock

/-! ### The monolithic implementation (main.py)

`main.py` carries its own copies of the three mutating handlers and of
`start_countdown`, with the same control flow but different human-readable
message strings.  They are embedded separately below so the two
implementations can be compared. -/

/-- Duplicate-id detail string of the monolithic register handler. -/
def main_dup_detail (id : String) : String :=
  s!"Monitor \x27{id}\x27 already exists"

/-- Invalid-timeout detail string of the monolithic register handler. -/
def main_invalid_timeout_detail : String :=
  "Timeout must be greater than 0"

/-- 404 detail of the monolithic heartbeat and pause handlers. -/
def main_not_found_detail (device_id : String) : String :=
  s!"Monitor \x27{device_id}\x27 not found"

/-- Already-down detail of the monolithic heartbeat handler. -/
def main_hb_down_detail (device_id : String) : String :=
  s!"Monitor \x27{device_id}\x27 is already down. Create a new monitor."

/-- Cannot-pause-down detail of the monolithic pause handler. -/
def main_pause_down_detail (device_id : String) : String :=
  s!"Monitor \x27{device_id}\x27 is already down. Cannot pause."

/-- `POST /monitors` — `create_monitor` in `main.py`. -/
def main_create_monitor (s : SysState) (monitor : MonitorCreate) (now : Nat) :
    Except HTTPException CreateResponse × SysState :=
  if (findKey s.monitors_db monitor.id).isSome then
    (.error { status_code := 400, detail := main_dup_detail monitor.id }, s)
  else if monitor.timeout ≤ 0 then
    (.error { status_code := 400, detail := main_invalid_timeout_detail }, s)
  else
    let record : Monitor :=
      { id := monitor.id, timeout := monitor.timeout,
        alert_email := monitor.alert_email, status := .active,
        created_at := now, last_heartbeat := none, heartbeat_history := [] }
    let task : TimerTask :=
      { device_id := monitor.id, timeout := monitor.timeout,
        cancelled := false, fired := false }
    (.ok { message := created_msg monitor.id, device_id := monitor.id,
           timeout := monitor.timeout, status := "active" },
     { s with
       monitors_db := setKey s.monitors_db monitor.id record,
       tasks := s.tasks ++ [task],
       active_tasks := setKey s.active_tasks monitor.id s.tasks.length })

/-- `POST /monitors/{device_id}/heartbeat` — `heartbeat` in `main.py`. -/
def main_heartbeat (s : SysState) (device_id : String) (now : Nat) :
    Except HTTPException HeartbeatResponse × SysState :=
  match findKey s.monitors_db device_id with
  | none =>
      (.error { status_code := 404, detail := main_not_found_detail device_id }, s)
  | some monitor =>
      if monitor.status = .down then
        (.error { status_code := 400, detail := main_hb_down_detail device_id }, s)
      else
        let s1 := cancelActive s device_id
        let task : TimerTask :=
          { device_id := device_id, timeout := monitor.timeout,
            cancelled := false, fired := false }
        let record : Monitor :=
          { monitor with
            status := .active,
            last_heartbeat := some now,
            heartbeat_history := monitor.heartbeat_history ++
              [{ received_at := now, event := "heartbeat",
                 timer_reset_to := monitor.timeout }] }
        (.ok { message := hb_msg device_id, device_id := device_id,
               timeout := monitor.timeout, last_heartbeat := now,
               status := "active" },
         { s1 with
           tasks := s1.tasks ++ [task],
           active_tasks := setKey s1.active_tasks device_id s1.tasks.length,
           monitors_db := setKey s1.monitors_db device_id record })

/-- `POST /monitors/{device_id}/pause` — `pause_monitor` in `main.py`. -/
def main_pause_monitor (s : SysState) (device_id : String) :
    Except HTTPException PauseResponse × SysState :=
  match findKey s.monitors_db device_id with
  | none =>
      (.error { status_code := 404, detail := main_not_found_detail device_id }, s)
  | some monitor =>
      if monitor.status = .down then
        (.error { status_code := 400, detail := main_pause_down_detail device_id }, s)
      else if monitor.status = .paused then
        (.error { status_code := 400, detail := already_paused_detail device_id }, s)
      else
        let s1 := cancelActive s device_id
        (.ok { message := paused_msg device_id, device_id := device_id,
               status := "paused" },
         { s1 with
           monitors_db := setKey s1.monitors_db device_id
             { monitor with status := .paused } })

/-- The post-sleep body of `start_countdown` in `main.py` (lines 127-167):
same re-validation and down-transition as `timer.py`, with the alert
emitted through `simulate_email_alert(device_id, alert_email, timestamp)`
instead of `fire_alert`. -/
def main_expire (s : SysState) (tid : Nat) (now : Nat) : SysState :=
  match s.tasks[tid]? with
  | none => s
  | some t =>
      if t.cancelled || t.fired then s
      else
        match findKey s.monitors_db t.device_id with
        | none => { s with tasks := markFired s.tasks tid }
        | some monitor =>
            if monitor.status = .active then
              { s with
                tasks := markFired s.tasks tid,
                monitors_db := setKey s.monitors_db t.device_id
                  { monitor with status := .down },
                alerts := s.alerts ++ [(t.device_id, monitor.alert_email, now)] }
            else { s with tasks := markFired s.tasks tid }

/-- One atomic step of the monolithic implementation. -/
def main_step (s : SysState) (e : Event) (now : Nat) : SysState :=
  match e with
  | .register monitor => { (main_create_monitor s monitor now).2 with clock := now }
  | .heartbeat d => { (main_heartbeat s d now).2 with clock := now }
  | .pause d => { (main_pause_monitor s d).2 with clock := now }
  | .expire tid => { main_expire s tid now with clock := now }

/-- Register results agree up to human-readable message text. -/
def createRespMatch :
    Except HTTPException CreateResponse → Except HTTPException CreateResponse → Prop
  | .error e1, .error e2 => e1.status_code = e2.status_code
  | .ok r1, .ok r2 =>
      r1.device_id = r2.device_id ∧ r1.timeout = r2.timeout ∧ r1.status = r2.status
  | _, _ => False

/-- Heartbeat results agree up to human-readable message text. -/
def hbRespMatch :
    Except HTTPException HeartbeatResponse → Except HTTPException HeartbeatResponse → Prop
  | .error e1, .error e2 => e1.status_code = e2.status_code
  | .ok r1, .ok r2 =>
      r1.device_id = r2.device_id ∧ r1.timeout = r2.timeout ∧
        r1.last_heartbeat = r2.last_heartbeat ∧ r1.status = r2.status
  | _, _ => False

/-- Pause results agree up to human-readable message text. -/
def pauseRespMatch :
    Except HTTPException PauseResponse → Except HTTPException PauseResponse → Prop
  | .error e1, .error e2 => e1.status_code = e2.status_code
  | .ok r1, .ok r2 => r1.device_id = r2.device_id ∧ r1.status = r2.status
  | _, _ => False

/-! ### Concrete states for the closed witnesses -/

/-- A sample registration request. -/
def mcd1 : MonitorCreate := { id := "d1", timeout := 5, alert_email := "a@x.com" }

/-- A second sample registration request. -/
def mcd2 : MonitorCreate := { id := "d2", timeout := 3, alert_email := "b@x.com" }

/-- The record `create_monitor` stores for `mcd1` at instant 0. -/
def mon1 : Monitor :=
  { id := "d1", timeout := 5, alert_email := "a@x.com", status := .active,
    created_at := 0, last_heartbeat := none, heartbeat_history := [] }

/-- `mon1` after its countdown expired. -/
def mon1Down : Monitor := { mon1 with status := .down }

/-- `mon1` after a pause. -/
def mon1Paused : Monitor := { mon1 with status := .paused }

/-- The countdown task started for `mcd1`. -/
def task1 : TimerTask :=
  { device_id := "d1", timeout := 5, cancelled := false, fired := false }

/-- State after registering `d1` at instant 0. -/
def regState : SysState := step init (.register mcd1) 0

/-- State after `d1` additionally went down at instant 6 (task 0 expired). -/
def downState : SysState := step regState (.expire 0) 6

/-- State after `d1` was instead paused at instant 1. -/
def pausedState : SysState := step regState (.pause "d1") 1

/-! ### Association-list lemmas -/

theorem findKey_setKey_self {α : Type} (l : List (String × α)) (k : String) (v : α) :
    findKey (setKey l k v) k = some v := by
  induction l with
  | nil => simp [setKey, findKey]
  | cons kv rest ih =>
      by_cases h : kv.1 = k
      · simp [setKey, findKey, h]
      · simp [setKey, findKey, h, ih]

theorem findKey_setKey_ne {α : Type} (l : List (String × α)) (k d : String) (v : α)
    (hne : d ≠ k) : findKey (setKey l k v) d = findKey l d := by
  have hne2 : k ≠ d := Ne.symm hne
  induction l with
  | nil => simp [setKey, findKey, hne2]
  | cons kv rest ih =>
      by_cases h : kv.1 = k
      · have h2 : kv.1 ≠ d := by rw [h]; exact hne2
        simp [setKey, findKey, h, h2, hne2]
      · simp only [setKey, if_neg h]
        by_cases h2 : kv.1 = d
        · simp [findKey, h2]
        · simp [findKey, h2, ih]

theorem findKey_setKey {α : Type} (l : List (String × α)) (k d : String) (v : α) :
    findKey (setKey l k v) d = if d = k then some v else findKey l d := by
  by_cases h : d = k
  · subst h; simp [findKey_setKey_self]
  · simp [h, findKey_setKey_ne l k d v h]

theorem keys_setKey_of_found {α : Type} (l : List (String × α)) (k : String) (v : α)
    (h : (findKey l k).isSome = true) :
    (setKey l k v).map Prod.fst = l.map Prod.fst := by
  induction l with
  | nil => simp [findKey] at h
  | cons kv rest ih =>
      by_cases hk : kv.1 = k
      · simp [setKey, hk]
      · simp only [findKey, if_neg hk] at h
        simp [setKey, hk, ih h]

theorem keys_setKey_of_none {α : Type} (l : List (String × α)) (k : String) (v : α)
    (h : findKey l k = none) :
    (setKey l k v).map Prod.fst = l.map Prod.fst ++ [k] := by
  induction l with
  | nil => simp [setKey]
  | cons kv rest ih =>
      by_cases hk : kv.1 = k
      · simp [findKey, hk] at h
      · simp only [findKey, if_neg hk] at h
        simp [setKey, hk, ih h]

theorem findKey_none_iff {α : Type} (l : List (String × α)) (k : String) :
    findKey l k = none ↔ k ∉ l.map Prod.fst := by
  induction l with
  | nil => simp [findKey]
  | cons kv rest ih =>
      by_cases hk : kv.1 = k
      · simp [findKey, hk]
      · have hk2 : ¬k = kv.1 := fun he => hk he.symm
        simp [findKey, hk, ih, hk2]

theorem nodup_keys_setKey {α : Type} (l : List (String × α)) (k : String) (v : α)
    (h : (l.map Prod.fst).Nodup) : ((setKey l k v).map Prod.fst).Nodup := by
  rcases hf : findKey l k with _ | w
  · rw [keys_setKey_of_none l k v hf]
    have hk : k ∉ l.map Prod.fst := (findKey_none_iff l k).1 hf
    rw [List.nodup_append]
    refine ⟨h, List.nodup_singleton k, ?_⟩
    intro a ha hb
    have hab : a = k := by simpa using hb
    subst hab
    exact hk ha
  · rw [keys_setKey_of_found l k v (by simp [hf])]
    exact h

theorem countKey_eq_one_of_nodup {α : Type} (l : List (String × α)) (k : String)
    (hnd : (l.map Prod.fst).Nodup) (h : (findKey l k).isSome = true) :
    countKey l k = 1 := by
  induction l with
  | nil => simp [findKey] at h
  | cons kv rest ih =>
      simp only [List.map_cons, List.nodup_cons] at hnd
      by_cases hk : kv.1 = k
      · have hrest : findKey rest k = none := by
          rw [findKey_none_iff]
          intro hmem
          exact hnd.1 (hk ▸ hmem)
        have hcnt : countKey rest k = 0 := by
          simp only [countKey, List.length_eq_zero, List.filter_eq_nil_iff]
          intro kv2 hmem hdec
          have : kv2.1 = k := by simpa using hdec
          exact ((findKey_none_iff rest k).1 hrest)
            (by simpa [this] using List.mem_map_of_mem Prod.fst hmem)
        have hstep : countKey (kv :: rest) k = countKey rest k + 1 := by
          simp [countKey, List.filter_cons, hk]
        rw [hstep, hcnt]
      · simp only [findKey, if_neg hk] at h
        have := ih hnd.2 h
        simpa [countKey, List.filter_cons, hk] using this

/-! ### Task-list lemmas -/

theorem cancelTask_length (ts : List TimerTask) (tid : Nat) :
    (cancelTask ts tid).length = ts.length := by
  unfold cancelTask
  rcases h : ts[tid]? with _ | t
  · rfl
  · by_cases hf : t.fired <;> simp [hf]

theorem markFired_length (ts : List TimerTask) (tid : Nat) :
    (markFired ts tid).length = ts.length := by
  unfold markFired
  rcases h : ts[tid]? with _ | t
  · rfl
  · simp

theorem cancelTask_getElem_ne (ts : List TimerTask) (tid j : Nat) (hne : tid ≠ j) :
    (cancelTask ts tid)[j]? = ts[j]? := by
  unfold cancelTask
  rcases h : ts[tid]? with _ | t
  · rfl
  · dsimp only
    by_cases hf : t.fired = true
    · simp [hf]
    · rw [if_neg hf, List.getElem?_set]
      simp [hne]

theorem markFired_getElem_ne (ts : List TimerTask) (tid j : Nat) (hne : tid ≠ j) :
    (markFired ts tid)[j]? = ts[j]? := by
  unfold markFired
  rcases h : ts[tid]? with _ | t
  · rfl
  · rw [List.getElem?_set]
    simp [hne]

theorem cancelTask_getElem_self (ts : List TimerTask) (tid : Nat) (t : TimerTask)
    (h : ts[tid]? = some t) :
    (cancelTask ts tid)[tid]? =
      some (if t.fired then t else { t with cancelled := true }) := by
  have hlt : tid < ts.length := by
    rcases List.getElem?_eq_some.1 h with ⟨hl, _⟩
    exact hl
  unfold cancelTask
  rw [h]
  dsimp only
  by_cases hf : t.fired = true
  · simp [hf, h]
  · simp only [if_neg hf]
    rw [List.getElem?_set]
    simp [hlt]

theorem markFired_getElem_self (ts : List TimerTask) (tid : Nat) (t : TimerTask)
    (h : ts[tid]? = some t) :
    (markFired ts tid)[tid]? = some { t with fired := true } := by
  have hlt : tid < ts.length := by
    rcases List.getElem?_eq_some.1 h with ⟨hl, _⟩
    exact hl
  unfold markFired
  rw [h, List.getElem?_set]
  simp [hlt]

theorem getElem_append_lt {α : Type} (l1 l2 : List α) (i : Nat) (h : i < l1.length) :
    (l1 ++ l2)[i]? = l1[i]? := by
  rw [List.getElem?_append]; simp [h]

theorem getElem_append_singleton {α : Type} (l : List α) (x : α) (i : Nat) (t : α)
    (h : (l ++ [x])[i]? = some t) :
    (i < l.length ∧ l[i]? = some t) ∨ (i = l.length ∧ t = x) := by
  by_cases hi : i < l.length
  · left
    refine ⟨hi, ?_⟩
    rw [← getElem_append_lt l [x] i hi]
    exact h
  · right
    rw [List.getElem?_append] at h
    simp only [hi, if_neg, if_false] at h
    rcases List.getElem?_eq_some.1 h with ⟨hlt, hv⟩
    simp only [List.length_singleton] at hlt
    have hi0 : i - l.length = 0 := by omega
    constructor
    · omega
    · rw [hi0] at h
      simpa using h.symm

theorem cancelTask_getElem_eq (ts : List TimerTask) (tid j : Nat) :
    (cancelTask ts tid)[j]? =
      if j = tid then
        (ts[j]?).map (fun t0 => if t0.fired then t0 else { t0 with cancelled := true })
      else ts[j]? := by
  by_cases hj : j = tid
  · subst hj
    rcases h : ts[j]? with _ | t
    · simp [cancelTask, h]
    · rw [cancelTask_getElem_self ts j t h]
      simp [h]
  · simp [hj, cancelTask_getElem_ne ts tid j (fun he => hj he.symm)]

theorem markFired_getElem_eq (ts : List TimerTask) (tid j : Nat) :
    (markFired ts tid)[j]? =
      if j = tid then (ts[j]?).map (fun t0 => { t0 with fired := true })
      else ts[j]? := by
  by_cases hj : j = tid
  · subst hj
    rcases h : ts[j]? with _ | t
    · simp [markFired, h]
    · rw [markFired_getElem_self ts j t h]
      simp [h]
  · simp [hj, markFired_getElem_ne ts tid j (fun he => hj he.symm)]

/-! ### TLive lemmas -/

theorem TLive_append_singleton {ts : List TimerTask} {x : TimerTask} {d : String} :
    TLive (ts ++ [x]) d ↔ TLive ts d ∨ (x.device_id = d ∧ x.live = true) := by
  constructor
  · rintro ⟨tid, t, ht, hd, hl⟩
    rcases getElem_append_singleton ts x tid t ht with ⟨hlt, hget⟩ | ⟨he, hv⟩
    · exact Or.inl ⟨tid, t, hget, hd, hl⟩
    · subst hv
      exact Or.inr ⟨hd, hl⟩
  · rintro (⟨tid, t, ht, hd, hl⟩ | ⟨hd, hl⟩)
    · refine ⟨tid, t, ?_, hd, hl⟩
      rw [getElem_append_lt ts [x] tid]
      · exact ht
      · rcases List.getElem?_eq_some.1 ht with ⟨hlt, _⟩
        exact hlt
    · exact ⟨ts.length, x, List.getElem?_concat_length ts x, hd, hl⟩

theorem TLive_cancelTask_elim {ts : List TimerTask} {tid : Nat} {d : String}
    (h : TLive (cancelTask ts tid) d) : TLive ts d := by
  rcases h with ⟨j, t, ht, hd, hl⟩
  rw [cancelTask_getElem_eq ts tid j] at ht
  by_cases hj : j = tid
  · subst hj
    rw [if_pos rfl] at ht
    rcases h0 : ts[j]? with _ | t0
    · rw [h0] at ht
      exact Option.noConfusion ht
    · rw [h0] at ht
      by_cases hf : t0.fired = true
      · simp [hf] at ht
        subst ht
        rw [TimerTask.live, hf] at hl
        simp at hl
      · simp [hf] at ht
        rw [← ht] at hl
        rw [TimerTask.live] at hl
        simp at hl
  · rw [if_neg hj] at ht
    exact ⟨j, t, ht, hd, hl⟩

theorem TLive_markFired_elim {ts : List TimerTask} {tid : Nat} {d : String}
    (h : TLive (markFired ts tid) d) : TLive ts d := by
  rcases h with ⟨j, t, ht, hd, hl⟩
  rw [markFired_getElem_eq ts tid j] at ht
  by_cases hj : j = tid
  · subst hj
    rw [if_pos rfl] at ht
    rcases h0 : ts[j]? with _ | t0
    · rw [h0] at ht
      exact Option.noConfusion ht
    · rw [h0] at ht
      rw [Option.map_some'] at ht
      injection ht with ht2
      rw [← ht2, TimerTask.live] at hl
      simp at hl
  · rw [if_neg hj] at ht
    exact ⟨j, t, ht, hd, hl⟩

theorem chain'_le_append_singleton (l : List Nat) (x : Nat) :
    List.Chain' (fun a b => a ≤ b) l → (∀ y ∈ l, y ≤ x) →
    List.Chain' (fun a b => a ≤ b) (l ++ [x]) := by
  induction l with
  | nil =>
      intro hc hb
      exact List.chain'_singleton x
  | cons a l2 ih =>
      intro hc hb
      rw [List.cons_append, List.chain'_cons']
      constructor
      · intro h hh
        rcases l2 with _ | ⟨b, l3⟩
        · have hax : x = h := by simpa using hh
          subst hax
          exact hb a (by simp)
        · have hab : b = h := by simpa using hh
          subst hab
          exact (List.chain'_cons.1 hc).1
      · exact ih (List.Chain'.tail hc) (fun y hy => hb y (List.mem_cons_of_mem a hy))

theorem cancelTask_self_not_live (ts : List TimerTask) (tid : Nat) (t' : TimerTask)
    (h : (cancelTask ts tid)[tid]? = some t') : t'.live = false := by
  rw [cancelTask_getElem_eq, if_pos rfl] at h
  rcases h0 : ts[tid]? with _ | t0
  · rw [h0] at h
    exact Option.noConfusion h
  · rw [h0, Option.map_some'] at h
    injection h with h2
    by_cases hfr : t0.fired = true
    · rw [if_pos hfr] at h2
      rw [← h2, TimerTask.live, hfr]
      simp
    · rw [if_neg hfr] at h2
      rw [← h2, TimerTask.live]
      simp

/-! ### cancelActive projections -/

theorem cancelActive_monitors_db (s : SysState) (d : String) :
    (cancelActive s d).monitors_db = s.monitors_db := by
  unfold cancelActive
  rcases findKey s.active_tasks d with _ | tid <;> rfl

theorem cancelActive_active_tasks (s : SysState) (d : String) :
    (cancelActive s d).active_tasks = s.active_tasks := by
  unfold cancelActive
  rcases findKey s.active_tasks d with _ | tid <;> rfl

theorem cancelActive_alerts (s : SysState) (d : String) :
    (cancelActive s d).alerts = s.alerts := by
  unfold cancelActive
  rcases findKey s.active_tasks d with _ | tid <;> rfl

theorem cancelActive_clock (s : SysState) (d : String) :
    (cancelActive s d).clock = s.clock := by
  unfold cancelActive
  rcases findKey s.active_tasks d with _ | tid <;> rfl

theorem cancelActive_tasks_length (s : SysState) (d : String) :
    (cancelActive s d).tasks.length = s.tasks.length := by
  unfold cancelActive
  rcases findKey s.active_tasks d with _ | tid
  · rfl
  · exact cancelTask_length s.tasks tid

theorem cancelActive_of_none (s : SysState) (d : String)
    (h : findKey s.active_tasks d = none) : cancelActive s d = s := by
  unfold cancelActive
  rw [h]

theorem cancelActive_tasks_of_some (s : SysState) (d : String) (tid : Nat)
    (h : findKey s.active_tasks d = some tid) :
    (cancelActive s d).tasks = cancelTask s.tasks tid := by
  unfold cancelActive
  rw [h]

theorem cancelActive_getElem_rev (s : SysState) (d2 : String) (j : Nat) (t' : TimerTask)
    (h : (cancelActive s d2).tasks[j]? = some t') :
    ∃ t0 : TimerTask, s.tasks[j]? = some t0 ∧ t0.device_id = t'.device_id ∧
      t0.fired = t'.fired ∧ t0.timeout = t'.timeout ∧
      (t'.live = true → t0.live = true) := by
  rcases hA : findKey s.active_tasks d2 with _ | tid
  · rw [cancelActive_of_none s d2 hA] at h
    exact ⟨t', h, rfl, rfl, rfl, fun hl => hl⟩
  · rw [cancelActive_tasks_of_some s d2 tid hA, cancelTask_getElem_eq] at h
    by_cases hj : j = tid
    · rw [if_pos hj] at h
      rcases h0 : s.tasks[j]? with _ | t0
      · rw [h0] at h
        exact Option.noConfusion h
      · rw [h0, Option.map_some'] at h
        injection h with h2
        by_cases hfr : t0.fired = true
        · rw [if_pos hfr] at h2
          exact ⟨t0, rfl, by rw [h2], by rw [h2], by rw [h2], fun hl => by rw [h2]; exact hl⟩
        · rw [if_neg hfr] at h2
          refine ⟨t0, rfl, by rw [← h2], by rw [← h2], by rw [← h2], ?_⟩
          intro hl
          rw [← h2, TimerTask.live] at hl
          simp at hl
    · rw [if_neg hj] at h
      exact ⟨t', h, rfl, rfl, rfl, fun hl => hl⟩

theorem cancelActive_getElem_fwd (s : SysState) (d2 : String) (j : Nat) (t0 : TimerTask)
    (h : s.tasks[j]? = some t0) :
    ∃ t' : TimerTask, (cancelActive s d2).tasks[j]? = some t' ∧
      t'.device_id = t0.device_id ∧ t'.fired = t0.fired ∧ t'.timeout = t0.timeout := by
  rcases hA : findKey s.active_tasks d2 with _ | tid
  · rw [cancelActive_of_none s d2 hA]
    exact ⟨t0, h, rfl, rfl, rfl⟩
  · rw [cancelActive_tasks_of_some s d2 tid hA, cancelTask_getElem_eq]
    by_cases hj : j = tid
    · rw [if_pos hj, h, Option.map_some']
      by_cases hfr : t0.fired = true
      · rw [if_pos hfr]
        exact ⟨t0, rfl, rfl, rfl, rfl⟩
      · rw [if_neg hfr]
        exact ⟨{ t0 with cancelled := true }, rfl, rfl, rfl, rfl⟩
    · rw [if_neg hj]
      exact ⟨t0, h, rfl, rfl, rfl⟩

theorem cancelActive_getElem_untouched (s : SysState) (d2 : String) (j : Nat)
    (hne : ∀ tid, findKey s.active_tasks d2 = some tid → j ≠ tid) :
    (cancelActive s d2).tasks[j]? = s.tasks[j]? := by
  rcases hA : findKey s.active_tasks d2 with _ | tid
  · rw [cancelActive_of_none s d2 hA]
  · rw [cancelActive_tasks_of_some s d2 tid hA, cancelTask_getElem_eq,
      if_neg (hne tid hA)]

theorem TLive_cancelActive_elim (s : SysState) (d2 d : String)
    (h : TLive (cancelActive s d2).tasks d) : TLive s.tasks d := by
  rcases hA : findKey s.active_tasks d2 with _ | tid
  · rw [cancelActive_of_none s d2 hA] at h
    exact h
  · rw [cancelActive_tasks_of_some s d2 tid hA] at h
    exact TLive_cancelTask_elim h

theorem TLive_cancelActive_intro_ne (s : SysState) (d2 d : String) (hne : d ≠ d2)
    (I : TasksInv s) (h : TLive s.tasks d) : TLive (cancelActive s d2).tasks d := by
  rcases h with ⟨j, t0, hj, hdev, hlive⟩
  refine ⟨j, t0, ?_, hdev, hlive⟩
  rw [cancelActive_getElem_untouched]
  · exact hj
  · intro tid hA he
    rcases I.activeValid d2 tid hA with ⟨t1, ht1, hdev1⟩
    rw [he] at hj
    rw [hj] at ht1
    injection ht1 with ht2
    rw [← ht2] at hdev1
    rw [hdev] at hdev1
    exact hne hdev1

/-- The invariants ignore the clock field. -/
theorem tasksInv_clock (s : SysState) (c : Nat) (I : TasksInv s) :
    TasksInv { s with clock := c } :=
  ⟨I.1, I.2, I.3, fun d m hm => I.4 d m hm, I.5⟩

theorem tasksInv_register_ok (s : SysState) (mc : MonitorCreate) (now : Nat)
    (hf : findKey s.monitors_db mc.id = none) (I : TasksInv s) :
    TasksInv
      { s with
        monitors_db := setKey s.monitors_db mc.id
          { id := mc.id, timeout := mc.timeout, alert_email := mc.alert_email,
            status := .active, created_at := now, last_heartbeat := none,
            heartbeat_history := [] },
        tasks := s.tasks ++ [{ device_id := mc.id, timeout := mc.timeout,
                               cancelled := false, fired := false }],
        active_tasks := setKey s.active_tasks mc.id s.tasks.length } := by
  have hfresh : ∀ (j : Nat) (t : TimerTask), s.tasks[j]? = some t →
      t.device_id ≠ mc.id := by
    intro j t hj he
    have h2 := I.tasksRegistered j t hj
    rw [he, hf] at h2
    simp at h2
  constructor
  · intro tid t htid
    rcases getElem_append_singleton _ _ tid t htid with ⟨hlt, hget⟩ | ⟨he, hv⟩
    · rw [findKey_setKey, if_neg (hfresh tid t hget)]
      exact I.tasksRegistered tid t hget
    · subst hv
      simp [findKey_setKey_self]
  · intro d tid htid
    rw [findKey_setKey] at htid
    by_cases hd : d = mc.id
    · rw [if_pos hd] at htid
      injection htid with htid2
      refine ⟨{ device_id := mc.id, timeout := mc.timeout,
                cancelled := false, fired := false }, ?_, hd.symm⟩
      rw [← htid2]
      exact List.getElem?_concat_length _ _
    · rw [if_neg hd] at htid
      rcases I.activeValid d tid htid with ⟨t, htt, hdev⟩
      refine ⟨t, ?_, hdev⟩
      rw [getElem_append_lt]
      · exact htt
      · rcases List.getElem?_eq_some.1 htt with ⟨hlt, _⟩
        exact hlt
  · intro tid t htid hlive
    rcases getElem_append_singleton _ _ tid t htid with ⟨hlt, hget⟩ | ⟨he, hv⟩
    · rw [findKey_setKey, if_neg (hfresh tid t hget)]
      exact I.liveIsCurrent tid t hget hlive
    · subst hv
      rw [he]
      simp [findKey_setKey_self]
  · intro d m hm
    rw [findKey_setKey] at hm
    by_cases hd : d = mc.id
    · rw [if_pos hd] at hm
      injection hm with hm2
      subst hm2
      constructor
      · intro _
        exact TLive_append_singleton.2 (Or.inr ⟨hd.symm, rfl⟩)
      · intro _
        rfl
    · rw [if_neg hd] at hm
      have base := I.liveIffActive d m hm
      constructor
      · intro hst
        exact TLive_append_singleton.2 (Or.inl (base.1 hst))
      · intro hLive
        rcases TLive_append_singleton.1 hLive with h1 | ⟨hdev, _⟩
        · exact base.2 h1
        · exact absurd hdev.symm hd
  · intro d tid t htid htt hfired
    rw [findKey_setKey] at htid
    by_cases hd : d = mc.id
    · rw [if_pos hd] at htid
      injection htid with htid2
      rw [← htid2, List.getElem?_concat_length] at htt
      injection htt with htt2
      rw [← htt2] at hfired
      simp at hfired
    · rw [if_neg hd] at htid
      rcases getElem_append_singleton _ _ tid t htt with ⟨hlt, hget⟩ | ⟨he, hv⟩
      · rcases I.firedInstalled d tid t htid hget hfired with ⟨m, hm, hdown⟩
        refine ⟨m, ?_, hdown⟩
        rw [findKey_setKey, if_neg hd]
        exact hm
      · rcases I.activeValid d tid htid with ⟨t0, ht0, _⟩
        rw [he] at ht0
        rcases List.getElem?_eq_some.1 ht0 with ⟨hlt2, _⟩
        exact absurd hlt2 (lt_irrefl _)

theorem tasksInv_heartbeat_ok (s : SysState) (d2 : String) (T : Int) (rec : Monitor)
    (hrec : rec.status = Status.active) (I : TasksInv s) :
    TasksInv
      { cancelActive s d2 with
        tasks := (cancelActive s d2).tasks ++
          [{ device_id := d2, timeout := T, cancelled := false, fired := false }],
        active_tasks := setKey (cancelActive s d2).active_tasks d2
          (cancelActive s d2).tasks.length,
        monitors_db := setKey (cancelActive s d2).monitors_db d2 rec } := by
  rw [cancelActive_monitors_db, cancelActive_active_tasks]
  constructor
  · intro tid t htid
    rcases getElem_append_singleton _ _ tid t htid with ⟨hlt, hget⟩ | ⟨he, hv⟩
    · rcases cancelActive_getElem_rev s d2 tid t hget with ⟨t0, ht0, hdev, _, _, _⟩
      rw [findKey_setKey]
      by_cases hd : t.device_id = d2
      · rw [if_pos hd]
        rfl
      · rw [if_neg hd]
        rw [← hdev]
        have h2 := I.tasksRegistered tid t0 ht0
        exact h2
    · subst hv
      simp [findKey_setKey_self]
  · intro d tid htid
    rw [findKey_setKey] at htid
    by_cases hd : d = d2
    · rw [if_pos hd] at htid
      injection htid with htid2
      refine ⟨{ device_id := d2, timeout := T,
                cancelled := false, fired := false }, ?_, hd.symm⟩
      rw [← htid2]
      exact List.getElem?_concat_length _ _
    · rw [if_neg hd] at htid
      rcases I.activeValid d tid htid with ⟨t0, ht0, hdev⟩
      rcases cancelActive_getElem_fwd s d2 tid t0 ht0 with ⟨t', ht', hdev2, _, _⟩
      refine ⟨t', ?_, by rw [hdev2, hdev]⟩
      rw [getElem_append_lt]
      · exact ht'
      · rcases List.getElem?_eq_some.1 ht' with ⟨hlt, _⟩
        exact hlt
  · intro tid t htid hlive
    rcases getElem_append_singleton _ _ tid t htid with ⟨hlt, hget⟩ | ⟨he, hv⟩
    · rcases cancelActive_getElem_rev s d2 tid t hget with ⟨t0, ht0, hdev, _, _, hliveimp⟩
      have hlive0 := hliveimp hlive
      have hcur := I.liveIsCurrent tid t0 ht0 hlive0
      by_cases hd : t0.device_id = d2
      · rw [hd] at hcur
        rw [cancelActive_tasks_of_some s d2 tid hcur] at hget
        have := cancelTask_self_not_live s.tasks tid t hget
        rw [hlive] at this
        exact Bool.noConfusion this
      · rw [findKey_setKey, if_neg (by rw [← hdev]; exact hd)]
        rw [← hdev]
        exact hcur
    · subst hv
      rw [he]
      simp [findKey_setKey_self]
  · intro d m hm
    rw [findKey_setKey] at hm
    by_cases hd : d = d2
    · rw [if_pos hd] at hm
      injection hm with hm2
      subst hm2
      constructor
      · intro _
        exact TLive_append_singleton.2 (Or.inr ⟨hd.symm, rfl⟩)
      · intro _
        exact hrec
    · rw [if_neg hd] at hm
      have base := I.liveIffActive d m hm
      constructor
      · intro hst
        exact TLive_append_singleton.2
          (Or.inl (TLive_cancelActive_intro_ne s d2 d hd I (base.1 hst)))
      · intro hLive
        rcases TLive_append_singleton.1 hLive with h1 | ⟨hdev, _⟩
        · exact base.2 (TLive_cancelActive_elim s d2 d h1)
        · exact absurd hdev.symm hd
  · intro d tid t htid htt hfired
    rw [findKey_setKey] at htid
    by_cases hd : d = d2
    · rw [if_pos hd] at htid
      injection htid with htid2
      rw [← htid2, List.getElem?_concat_length] at htt
      injection htt with htt2
      rw [← htt2] at hfired
      simp at hfired
    · rw [if_neg hd] at htid
      rcases getElem_append_singleton _ _ tid t htt with ⟨hlt, hget⟩ | ⟨he, hv⟩
      · rcases cancelActive_getElem_rev s d2 tid t hget with ⟨t0, ht0, _, hfir, _, _⟩
        rcases I.firedInstalled d tid t0 htid ht0 (by rw [hfir]; exact hfired) with
          ⟨m0, hm0, hdown⟩
        refine ⟨m0, ?_, hdown⟩
        rw [findKey_setKey, if_neg hd]
        exact hm0
      · rcases I.activeValid d tid htid with ⟨t0, ht0, _⟩
        rw [he, cancelActive_tasks_length] at ht0
        rcases List.getElem?_eq_some.1 ht0 with ⟨hlt2, _⟩
        exact absurd hlt2 (lt_irrefl _)

theorem tasksInv_pause_ok (s : SysState) (d2 : String) (mon : Monitor)
    (hmon : findKey s.monitors_db d2 = some mon) (hact : mon.status = .active)
    (I : TasksInv s) :
    TasksInv
      { cancelActive s d2 with
        monitors_db := setKey (cancelActive s d2).monitors_db d2
          { mon with status := .paused } } := by
  rw [cancelActive_monitors_db]
  have hCAactive : (cancelActive s d2).active_tasks = s.active_tasks :=
    cancelActive_active_tasks s d2
  constructor
  · intro tid t htid
    rcases cancelActive_getElem_rev s d2 tid t htid with ⟨t0, ht0, hdev, _, _, _⟩
    rw [findKey_setKey]
    by_cases hd : t.device_id = d2
    · rw [if_pos hd]
      rfl
    · rw [if_neg hd, ← hdev]
      exact I.tasksRegistered tid t0 ht0
  · intro d tid htid
    rw [hCAactive] at htid
    rcases I.activeValid d tid htid with ⟨t0, ht0, hdev⟩
    rcases cancelActive_getElem_fwd s d2 tid t0 ht0 with ⟨t', ht', hdev2, _, _⟩
    exact ⟨t', ht', by rw [hdev2, hdev]⟩
  · intro tid t htid hlive
    rw [hCAactive]
    rcases cancelActive_getElem_rev s d2 tid t htid with ⟨t0, ht0, hdev, _, _, hliveimp⟩
    have hlive0 := hliveimp hlive
    have hcur := I.liveIsCurrent tid t0 ht0 hlive0
    by_cases hd : t0.device_id = d2
    · rw [hd] at hcur
      rw [cancelActive_tasks_of_some s d2 tid hcur] at htid
      have h2 := cancelTask_self_not_live s.tasks tid t htid
      rw [hlive] at h2
      exact Bool.noConfusion h2
    · rw [← hdev]
      exact hcur
  · intro d m hm
    rw [findKey_setKey] at hm
    by_cases hd : d = d2
    · rw [if_pos hd] at hm
      injection hm with hm2
      subst hm2
      constructor
      · intro hst
        exact absurd hst (by simp)
      · intro hLive
        exfalso
        rcases hLive with ⟨tid, t, hget, hdev, hlive⟩
        rcases cancelActive_getElem_rev s d2 tid t hget with
          ⟨t0, ht0, hdev0, _, _, hliveimp⟩
        have hlive0 := hliveimp hlive
        have hcur := I.liveIsCurrent tid t0 ht0 hlive0
        rw [hdev0, hdev, hd] at hcur
        rw [cancelActive_tasks_of_some s d2 tid hcur] at hget
        have h2 := cancelTask_self_not_live s.tasks tid t hget
        rw [hlive] at h2
        exact Bool.noConfusion h2
    · rw [if_neg hd] at hm
      have base := I.liveIffActive d m hm
      constructor
      · intro hst
        exact TLive_cancelActive_intro_ne s d2 d hd I (base.1 hst)
      · intro hLive
        exact base.2 (TLive_cancelActive_elim s d2 d hLive)
  · intro d tid t htid htt hfired
    rw [hCAactive] at htid
    rcases cancelActive_getElem_rev s d2 tid t htt with ⟨t0, ht0, _, hfir, _, _⟩
    rcases I.firedInstalled d tid t0 htid ht0 (by rw [hfir]; exact hfired) with
      ⟨m0, hm0, hdown⟩
    by_cases hd : d = d2
    · exfalso
      rw [hd, hmon] at hm0
      injection hm0 with hm2
      rw [← hm2, hact] at hdown
      exact Status.noConfusion hdown
    · refine ⟨m0, ?_, hdown⟩
      rw [findKey_setKey, if_neg hd]
      exact hm0

theorem tasksInv_expire_active (s : SysState) (tid : Nat) (now : Nat) (t : TimerTask)
    (mon : Monitor) (ht : s.tasks[tid]? = some t) (hc : t.cancelled = false)
    (hf : t.fired = false) (hmon : findKey s.monitors_db t.device_id = some mon)
    (hact : mon.status = .active) (I : TasksInv s) :
    TasksInv
      { s with
        tasks := markFired s.tasks tid,
        monitors_db := setKey s.monitors_db t.device_id { mon with status := .down },
        alerts := s.alerts ++ [(t.device_id, mon.alert_email, now)] } := by
  have hlive : t.live = true := by
    rw [TimerTask.live, hc, hf]
    rfl
  have hcur := I.liveIsCurrent tid t ht hlive
  constructor
  · intro j t' hj
    rw [markFired_getElem_eq] at hj
    by_cases hje : j = tid
    · rw [if_pos hje, hje, ht, Option.map_some'] at hj
      injection hj with hj2
      rw [findKey_setKey]
      by_cases hd : t'.device_id = t.device_id
      · rw [if_pos hd]
        rfl
      · exfalso
        rw [← hj2] at hd
        exact hd rfl
    · rw [if_neg hje] at hj
      rw [findKey_setKey]
      by_cases hd : t'.device_id = t.device_id
      · rw [if_pos hd]
        rfl
      · rw [if_neg hd]
        exact I.tasksRegistered j t' hj
  · intro d j hj
    rcases I.activeValid d j hj with ⟨t0, ht0, hdev⟩
    rw [markFired_getElem_eq]
    by_cases hje : j = tid
    · rw [if_pos hje, hje, ht, Option.map_some']
      rw [hje, ht] at ht0
      injection ht0 with ht02
      refine ⟨{ t with fired := true }, rfl, ?_⟩
      rw [← ht02] at hdev
      exact hdev
    · rw [if_neg hje]
      exact ⟨t0, ht0, hdev⟩
  · intro j t' hj hlive2
    rw [markFired_getElem_eq] at hj
    by_cases hje : j = tid
    · exfalso
      rw [if_pos hje, hje, ht, Option.map_some'] at hj
      injection hj with hj2
      rw [← hj2, TimerTask.live] at hlive2
      simp at hlive2
    · rw [if_neg hje] at hj
      exact I.liveIsCurrent j t' hj hlive2
  · intro d m hm
    rw [findKey_setKey] at hm
    by_cases hd : d = t.device_id
    · rw [if_pos hd] at hm
      injection hm with hm2
      subst hm2
      constructor
      · intro hst
        exact absurd hst (by simp)
      · intro hLive
        exfalso
        rcases hLive with ⟨j, t', hget, hdev, hlive2⟩
        rw [markFired_getElem_eq] at hget
        by_cases hje : j = tid
        · rw [if_pos hje, hje, ht, Option.map_some'] at hget
          injection hget with hg2
          rw [← hg2, TimerTask.live] at hlive2
          simp at hlive2
        · rw [if_neg hje] at hget
          have h2 := I.liveIsCurrent j t' hget hlive2
          rw [hdev, hd, hcur] at h2
          injection h2 with h3
          exact hje h3.symm
    · rw [if_neg hd] at hm
      have base := I.liveIffActive d m hm
      constructor
      · intro hst
        rcases base.1 hst with ⟨j, t0, hget, hdev, hlive2⟩
        refine ⟨j, t0, ?_, hdev, hlive2⟩
        rw [markFired_getElem_eq]
        by_cases hje : j = tid
        · exfalso
          rw [hje, ht] at hget
          injection hget with hg2
          rw [hg2] at hd
          exact hd hdev.symm
        · rw [if_neg hje]
          exact hget
      · intro hLive
        exact base.2 (TLive_markFired_elim hLive)
  · intro d j t' hj hget hfired
    rw [markFired_getElem_eq] at hget
    by_cases hje : j = tid
    · rw [if_pos hje, hje, ht, Option.map_some'] at hget
      injection hget with hg2
      rcases I.activeValid d j hj with ⟨t0, ht0, hdev⟩
      rw [hje, ht] at ht0
      injection ht0 with ht02
      have hdd : d = t.device_id := by
        rw [← hdev, ← ht02]
      refine ⟨{ mon with status := .down }, ?_, rfl⟩
      rw [findKey_setKey, if_pos hdd]
    · rw [if_neg hje] at hget
      rcases I.firedInstalled d j t' hj hget hfired with ⟨m0, hm0, hdown⟩
      by_cases hd : d = t.device_id
      · exfalso
        rw [hd, hmon] at hm0
        injection hm0 with hm2
        rw [← hm2, hact] at hdown
        exact Status.noConfusion hdown
      · refine ⟨m0, ?_, hdown⟩
        rw [findKey_setKey, if_neg hd]
        exact hm0

/-! ### Handler characterizations -/

theorem create_monitor_found (s : SysState) (mc : MonitorCreate) (now : Nat)
    (h : (findKey s.monitors_db mc.id).isSome = true) :
    create_monitor s mc now =
      (.error { status_code := 400, detail := dup_detail mc.id }, s) := by
  simp [create_monitor, h]

theorem create_monitor_invalid (s : SysState) (mc : MonitorCreate) (now : Nat)
    (h : findKey s.monitors_db mc.id = none) (ht : mc.timeout ≤ 0) :
    create_monitor s mc now =
      (.error { status_code := 400, detail := invalid_timeout_detail }, s) := by
  simp [create_monitor, h, ht]

theorem create_monitor_ok (s : SysState) (mc : MonitorCreate) (now : Nat)
    (h : findKey s.monitors_db mc.id = none) (ht : 0 < mc.timeout) :
    create_monitor s mc now =
      (.ok { message := created_msg mc.id, device_id := mc.id,
             timeout := mc.timeout, status := "active" },
       { s with
         monitors_db := setKey s.monitors_db mc.id
           { id := mc.id, timeout := mc.timeout, alert_email := mc.alert_email,
             status := .active, created_at := now, last_heartbeat := none,
             heartbeat_history := [] },
         tasks := s.tasks ++ [{ device_id := mc.id, timeout := mc.timeout,
                                cancelled := false, fired := false }],
         active_tasks := setKey s.active_tasks mc.id s.tasks.length }) := by
  simp [create_monitor, h, not_le.2 ht]

theorem heartbeat_not_found (s : SysState) (d : String) (now : Nat)
    (h : findKey s.monitors_db d = none) :
    heartbeat s d now =
      (.error { status_code := 404, detail := hb_not_found_detail d }, s) := by
  simp [heartbeat, h]

theorem heartbeat_down (s : SysState) (d : String) (now : Nat) (m : Monitor)
    (h : findKey s.monitors_db d = some m) (hst : m.status = .down) :
    heartbeat s d now =
      (.error { status_code := 400, detail := hb_down_detail d }, s) := by
  simp [heartbeat, h, hst]

theorem heartbeat_ok (s : SysState) (d : String) (now : Nat) (m : Monitor)
    (h : findKey s.monitors_db d = some m) (hst : m.status ≠ .down) :
    heartbeat s d now =
      (.ok { message := hb_msg d, device_id := d, timeout := m.timeout,
             last_heartbeat := now, status := "active" },
       { cancelActive s d with
         tasks := (cancelActive s d).tasks ++
           [{ device_id := d, timeout := m.timeout,
              cancelled := false, fired := false }],
         active_tasks := setKey (cancelActive s d).active_tasks d
           (cancelActive s d).tasks.length,
         monitors_db := setKey (cancelActive s d).monitors_db d
           { m with
             status := .active, last_heartbeat := some now,
             heartbeat_history := m.heartbeat_history ++
               [{ received_at := now, event := "heartbeat",
                  timer_reset_to := m.timeout }] } }) := by
  simp [heartbeat, h, hst]

theorem pause_not_found (s : SysState) (d : String)
    (h : findKey s.monitors_db d = none) :
    pause_monitor s d =
      (.error { status_code := 404, detail := pause_not_found_detail d }, s) := by
  simp [pause_monitor, h]

theorem pause_down (s : SysState) (d : String) (m : Monitor)
    (h : findKey s.monitors_db d = some m) (hst : m.status = .down) :
    pause_monitor s d =
      (.error { status_code := 400, detail := pause_down_detail d }, s) := by
  simp [pause_monitor, h, hst]

theorem pause_already (s : SysState) (d : String) (m : Monitor)
    (h : findKey s.monitors_db d = some m) (hst : m.status = .paused) :
    pause_monitor s d =
      (.error { status_code := 400, detail := already_paused_detail d }, s) := by
  simp [pause_monitor, h, hst]

theorem pause_ok (s : SysState) (d : String) (m : Monitor)
    (h : findKey s.monitors_db d = some m) (hst : m.status = .active) :
    pause_monitor s d =
      (.ok { message := paused_msg d, device_id := d, status := "paused" },
       { cancelActive s d with
         monitors_db := setKey (cancelActive s d).monitors_db d
           { m with status := .paused } }) := by
  simp [pause_monitor, h, hst]

theorem expire_missing (s : SysState) (tid : Nat) (now : Nat)
    (h : s.tasks[tid]? = none) : expire s tid now = s := by
  simp [expire, h]

theorem expire_dead (s : SysState) (tid : Nat) (now : Nat) (t : TimerTask)
    (h : s.tasks[tid]? = some t) (hd : t.cancelled = true ∨ t.fired = true) :
    expire s tid now = s := by
  rcases hd with hd | hd <;> simp [expire, h, hd]

theorem expire_live_orphan (s : SysState) (tid : Nat) (now : Nat) (t : TimerTask)
    (h : s.tasks[tid]? = some t) (hc : t.cancelled = false) (hf : t.fired = false)
    (hm : findKey s.monitors_db t.device_id = none) :
    expire s tid now = { s with tasks := markFired s.tasks tid } := by
  simp [expire, h, hc, hf, hm]

theorem expire_live_active (s : SysState) (tid : Nat) (now : Nat) (t : TimerTask)
    (m : Monitor) (h : s.tasks[tid]? = some t) (hc : t.cancelled = false)
    (hf : t.fired = false) (hm : findKey s.monitors_db t.device_id = some m)
    (hst : m.status = .active) :
    expire s tid now =
      { s with
        tasks := markFired s.tasks tid,
        monitors_db := setKey s.monitors_db t.device_id { m with status := .down },
        alerts := s.alerts ++ [(t.device_id, m.alert_email, now)] } := by
  simp [expire, h, hc, hf, hm, hst]

theorem expire_live_not_active (s : SysState) (tid : Nat) (now : Nat) (t : TimerTask)
    (m : Monitor) (h : s.tasks[tid]? = some t) (hc : t.cancelled = false)
    (hf : t.fired = false) (hm : findKey s.monitors_db t.device_id = some m)
    (hst : m.status ≠ .active) :
    expire s tid now = { s with tasks := markFired s.tasks tid } := by
  simp [expire, h, hc, hf, hm, hst]

theorem tasksInv_step (s : SysState) (e : Event) (now : Nat) (I : TasksInv s) :
    TasksInv (step s e now) := by
  cases e with
  | register mc =>
      show TasksInv { (create_monitor s mc now).2 with clock := now }
      rcases hf : findKey s.monitors_db mc.id with _ | v
      · by_cases ht2 : mc.timeout ≤ 0
        · rw [create_monitor_invalid s mc now hf ht2]
          exact tasksInv_clock s now I
        · rw [create_monitor_ok s mc now hf (lt_of_not_le ht2)]
          exact tasksInv_clock _ now (tasksInv_register_ok s mc now hf I)
      · rw [create_monitor_found s mc now (by simp [hf])]
        exact tasksInv_clock s now I
  | heartbeat d2 =>
      show TasksInv { (heartbeat s d2 now).2 with clock := now }
      rcases hf : findKey s.monitors_db d2 with _ | mon
      · rw [heartbeat_not_found s d2 now hf]
        exact tasksInv_clock s now I
      · by_cases hst : mon.status = .down
        · rw [heartbeat_down s d2 now mon hf hst]
          exact tasksInv_clock s now I
        · rw [heartbeat_ok s d2 now mon hf hst]
          exact tasksInv_clock _ now (tasksInv_heartbeat_ok s d2 mon.timeout _ rfl I)
  | pause d2 =>
      show TasksInv { (pause_monitor s d2).2 with clock := now }
      rcases hf : findKey s.monitors_db d2 with _ | mon
      · rw [pause_not_found s d2 hf]
        exact tasksInv_clock s now I
      · by_cases hst : mon.status = .down
        · rw [pause_down s d2 mon hf hst]
          exact tasksInv_clock s now I
        · by_cases hst2 : mon.status = .paused
          · rw [pause_already s d2 mon hf hst2]
            exact tasksInv_clock s now I
          · have hact : mon.status = .active := by
              cases hs3 : mon.status
              · rfl
              · exact absurd hs3 hst2
              · exact absurd hs3 hst
            rw [pause_ok s d2 mon hf hact]
            exact tasksInv_clock _ now (tasksInv_pause_ok s d2 mon hf hact I)
  | expire tid =>
      show TasksInv { expire s tid now with clock := now }
      rcases ht : s.tasks[tid]? with _ | t
      · rw [expire_missing s tid now ht]
        exact tasksInv_clock s now I
      · by_cases hdead : t.cancelled = true ∨ t.fired = true
        · rw [expire_dead s tid now t ht hdead]
          exact tasksInv_clock s now I
        · push_neg at hdead
          simp only [Ne, Bool.not_eq_true] at hdead
          have hlive : t.live = true := by
            rw [TimerTask.live, hdead.1, hdead.2]
            rfl
          rcases h2 : findKey s.monitors_db t.device_id with _ | mon
          · exfalso
            have h3 := I.tasksRegistered tid t ht
            rw [h2] at h3
            simp at h3
          · have hact : mon.status = .active :=
              (I.liveIffActive t.device_id mon h2).2 ⟨tid, t, ht, rfl, hlive⟩
            rw [expire_live_active s tid now t mon ht hdead.1 hdead.2 h2 hact]
            exact tasksInv_clock _ now
              (tasksInv_expire_active s tid now t mon ht hdead.1 hdead.2 h2 hact I)

theorem reachable_tasksInv (s : SysState) (hs : Reachable s) : TasksInv s := by
  induction hs with
  | init =>
      constructor
      · intro tid t h
        simp [init] at h
      · intro d tid h
        simp [init, findKey] at h
      · intro tid t h _
        simp [init] at h
      · intro d m hm
        simp [init, findKey] at hm
      · intro d tid t h1 _ _
        simp [init, findKey] at h1
  | step hr hc ih => exact tasksInv_step _ _ _ ih

/-! ### Shape of the monitor store after one step -/

theorem step_monitors_db_cases (s : SysState) (e : Event) (now : Nat) :
    (step s e now).monitors_db = s.monitors_db ∨
    ∃ k v, (step s e now).monitors_db = setKey s.monitors_db k v := by
  cases e with
  | register mc =>
      rcases hf : findKey s.monitors_db mc.id with _ | v
      · by_cases ht : mc.timeout ≤ 0
        · left; simp [step, create_monitor_invalid s mc now hf ht]
        · right
          refine ⟨mc.id,
            { id := mc.id, timeout := mc.timeout, alert_email := mc.alert_email,
              status := .active, created_at := now, last_heartbeat := none,
              heartbeat_history := [] }, ?_⟩
          simp [step, create_monitor_ok s mc now hf (lt_of_not_le ht)]
      · left; simp [step, create_monitor_found s mc now (by simp [hf])]
  | heartbeat d2 =>
      rcases hf : findKey s.monitors_db d2 with _ | mon
      · left; simp [step, heartbeat_not_found s d2 now hf]
      · by_cases hst : mon.status = .down
        · left; simp [step, heartbeat_down s d2 now mon hf hst]
        · right
          refine ⟨d2,
            { mon with
              status := .active, last_heartbeat := some now,
              heartbeat_history := mon.heartbeat_history ++
                [{ received_at := now, event := "heartbeat",
                   timer_reset_to := mon.timeout }] }, ?_⟩
          simp [step, heartbeat_ok s d2 now mon hf hst, cancelActive_monitors_db]
  | pause d2 =>
      rcases hf : findKey s.monitors_db d2 with _ | mon
      · left; simp [step, pause_not_found s d2 hf]
      · by_cases hst : mon.status = .down
        · left; simp [step, pause_down s d2 mon hf hst]
        · by_cases hst2 : mon.status = .paused
          · left; simp [step, pause_already s d2 mon hf hst2]
          · have hact : mon.status = .active := by
              cases hs3 : mon.status
              · rfl
              · exact absurd hs3 hst2
              · exact absurd hs3 hst
            right
            refine ⟨d2, { mon with status := .paused }, ?_⟩
            simp [step, pause_ok s d2 mon hf hact, cancelActive_monitors_db]
  | expire tid =>
      rcases ht : s.tasks[tid]? with _ | t
      · left; simp [step, expire_missing s tid now ht]
      · by_cases hdead : t.cancelled = true ∨ t.fired = true
        · left; simp [step, expire_dead s tid now t ht hdead]
        · push_neg at hdead
          simp only [Ne, Bool.not_eq_true] at hdead
          rcases hmm : findKey s.monitors_db t.device_id with _ | mon
          · left; simp [step, expire_live_orphan s tid now t ht hdead.1 hdead.2 hmm]
          · by_cases hst : mon.status = .active
            · right
              refine ⟨t.device_id, { mon with status := .down }, ?_⟩
              simp [step, expire_live_active s tid now t mon ht hdead.1 hdead.2 hmm hst]
            · left
              simp [step, expire_live_not_active s tid now t mon ht hdead.1 hdead.2 hmm hst]

theorem step_record_cases (s : SysState) (e : Event) (now : Nat) (d : String)
    (m' : Monitor) (h : findKey (step s e now).monitors_db d = some m') :
    findKey s.monitors_db d = some m' ∨
    (m'.heartbeat_history = [] ∧ m'.last_heartbeat = none) ∨
    (∃ m : Monitor, findKey s.monitors_db d = some m ∧
      m'.last_heartbeat = some now ∧
      m'.heartbeat_history = m.heartbeat_history ++
        [{ received_at := now, event := "heartbeat", timer_reset_to := m.timeout }]) ∨
    (∃ m : Monitor, findKey s.monitors_db d = some m ∧
      m'.heartbeat_history = m.heartbeat_history ∧
      m'.last_heartbeat = m.last_heartbeat) := by
  cases e with
  | register mc =>
      rcases hf : findKey s.monitors_db mc.id with _ | v
      · by_cases ht2 : mc.timeout ≤ 0
        · have hdb : (step s (.register mc) now).monitors_db = s.monitors_db := by
            simp [step, create_monitor_invalid s mc now hf ht2]
          rw [hdb] at h
          exact Or.inl h
        · have hdb : (step s (.register mc) now).monitors_db =
              setKey s.monitors_db mc.id
                { id := mc.id, timeout := mc.timeout, alert_email := mc.alert_email,
                  status := .active, created_at := now, last_heartbeat := none,
                  heartbeat_history := [] } := by
            simp [step, create_monitor_ok s mc now hf (lt_of_not_le ht2)]
          rw [hdb, findKey_setKey] at h
          by_cases hd : d = mc.id
          · rw [if_pos hd] at h
            injection h with hm2
            subst hm2
            exact Or.inr (Or.inl ⟨rfl, rfl⟩)
          · rw [if_neg hd] at h
            exact Or.inl h
      · have hdb : (step s (.register mc) now).monitors_db = s.monitors_db := by
          simp [step, create_monitor_found s mc now (by simp [hf])]
        rw [hdb] at h
        exact Or.inl h
  | heartbeat d2 =>
      rcases hf : findKey s.monitors_db d2 with _ | mon
      · have hdb : (step s (.heartbeat d2) now).monitors_db = s.monitors_db := by
          simp [step, heartbeat_not_found s d2 now hf]
        rw [hdb] at h
        exact Or.inl h
      · by_cases hst : mon.status = .down
        · have hdb : (step s (.heartbeat d2) now).monitors_db = s.monitors_db := by
            simp [step, heartbeat_down s d2 now mon hf hst]
          rw [hdb] at h
          exact Or.inl h
        · have hdb : (step s (.heartbeat d2) now).monitors_db =
              setKey s.monitors_db d2
                { mon with
                  status := .active, last_heartbeat := some now,
                  heartbeat_history := mon.heartbeat_history ++
                    [{ received_at := now, event := "heartbeat",
                       timer_reset_to := mon.timeout }] } := by
            simp [step, heartbeat_ok s d2 now mon hf hst, cancelActive_monitors_db]
          rw [hdb, findKey_setKey] at h
          by_cases hd : d = d2
          · rw [if_pos hd] at h
            injection h with hm2
            subst hm2
            refine Or.inr (Or.inr (Or.inl ⟨mon, ?_, rfl, rfl⟩))
            rw [hd]
            exact hf
          · rw [if_neg hd] at h
            exact Or.inl h
  | pause d2 =>
      rcases hf : findKey s.monitors_db d2 with _ | mon
      · have hdb : (step s (.pause d2) now).monitors_db = s.monitors_db := by
          simp [step, pause_not_found s d2 hf]
        rw [hdb] at h
        exact Or.inl h
      · by_cases hst : mon.status = .down
        · have hdb : (step s (.pause d2) now).monitors_db = s.monitors_db := by
            simp [step, pause_down s d2 mon hf hst]
          rw [hdb] at h
          exact Or.inl h
        · by_cases hst2 : mon.status = .paused
          · have hdb : (step s (.pause d2) now).monitors_db = s.monitors_db := by
              simp [step, pause_already s d2 mon hf hst2]
            rw [hdb] at h
            exact Or.inl h
          · have hact : mon.status = .active := by
              cases hs3 : mon.status
              · rfl
              · exact absurd hs3 hst2
              · exact absurd hs3 hst
            have hdb : (step s (.pause d2) now).monitors_db =
                setKey s.monitors_db d2 { mon with status := .paused } := by
              simp [step, pause_ok s d2 mon hf hact, cancelActive_monitors_db]
            rw [hdb, findKey_setKey] at h
            by_cases hd : d = d2
            · rw [if_pos hd] at h
              injection h with hm2
              subst hm2
              refine Or.inr (Or.inr (Or.inr ⟨mon, ?_, rfl, rfl⟩))
              rw [hd]
              exact hf
            · rw [if_neg hd] at h
              exact Or.inl h
  | expire tid =>
      rcases ht : s.tasks[tid]? with _ | t
      · have hdb : (step s (.expire tid) now).monitors_db = s.monitors_db := by
          simp [step, expire_missing s tid now ht]
        rw [hdb] at h
        exact Or.inl h
      · by_cases hdead : t.cancelled = true ∨ t.fired = true
        · have hdb : (step s (.expire tid) now).monitors_db = s.monitors_db := by
            simp [step, expire_dead s tid now t ht hdead]
          rw [hdb] at h
          exact Or.inl h
        · push_neg at hdead
          simp only [Ne, Bool.not_eq_true] at hdead
          rcases hmm : findKey s.monitors_db t.device_id with _ | mon
          · have hdb : (step s (.expire tid) now).monitors_db = s.monitors_db := by
              simp [step, expire_live_orphan s tid now t ht hdead.1 hdead.2 hmm]
            rw [hdb] at h
            exact Or.inl h
          · by_cases hst : mon.status = .active
            · have hdb : (step s (.expire tid) now).monitors_db =
                  setKey s.monitors_db t.device_id { mon with status := .down } := by
                simp [step,
                  expire_live_active s tid now t mon ht hdead.1 hdead.2 hmm hst]
              rw [hdb, findKey_setKey] at h
              by_cases hd : d = t.device_id
              · rw [if_pos hd] at h
                injection h with hm2
                subst hm2
                refine Or.inr (Or.inr (Or.inr ⟨mon, ?_, rfl, rfl⟩))
                rw [hd]
                exact hmm
              · rw [if_neg hd] at h
                exact Or.inl h
            · have hdb : (step s (.expire tid) now).monitors_db = s.monitors_db := by
                simp [step,
                  expire_live_not_active s tid now t mon ht hdead.1 hdead.2 hmm hst]
              rw [hdb] at h
              exact Or.inl h

theorem histInv_clock (s : SysState) (c : Nat) (hc : s.clock ≤ c) (H : HistInv s) :
    HistInv { s with clock := c } := by
  constructor
  · exact H.1
  · exact H.2
  · intro d m hm r hr
    exact le_trans (H.3 d m hm r hr) hc

theorem step_clock (s : SysState) (e : Event) (now : Nat) :
    (step s e now).clock = now := by
  cases e <;> rfl

theorem histInv_step (s : SysState) (e : Event) (now : Nat) (hcl : s.clock ≤ now)
    (H : HistInv s) : HistInv (step s e now) := by
  constructor
  · intro d m' h
    rcases step_record_cases s e now d m' h with h1 | h2 | ⟨m, hm, hl, hh⟩ | ⟨m, hm, hh, hl⟩
    · exact H.lastHB d m' h1
    · rw [h2.2, h2.1]
      rfl
    · rw [hl, hh]
      simp
    · rw [hl, hh]
      exact H.lastHB d m hm
  · intro d m' h
    rcases step_record_cases s e now d m' h with h1 | h2 | ⟨m, hm, hl, hh⟩ | ⟨m, hm, hh, hl⟩
    · exact H.histSorted d m' h1
    · rw [h2.1]
      simp
    · rw [hh, List.map_append]
      apply chain'_le_append_singleton
      · exact H.histSorted d m hm
      · intro y hy
        rcases List.mem_map.1 hy with ⟨r, hr, hry⟩
        rw [← hry]
        exact le_trans (H.histBounded d m hm r hr) hcl
    · rw [hh]
      exact H.histSorted d m hm
  · intro d m' h r hr
    rw [step_clock]
    rcases step_record_cases s e now d m' h with h1 | h2 | ⟨m, hm, hl, hh⟩ | ⟨m, hm, hh, hl⟩
    · exact le_trans (H.histBounded d m' h1 r hr) hcl
    · rw [h2.1] at hr
      simp at hr
    · rw [hh] at hr
      rcases List.mem_append.1 hr with hr1 | hr2
      · exact le_trans (H.histBounded d m hm r hr1) hcl
      · have hre : r.received_at = now := by
          have h5 : r = { received_at := now, event := "heartbeat", timer_reset_to := m.timeout } := by
            simpa using hr2
          rw [h5]
        rw [hre]
    · rw [hh] at hr
      exact le_trans (H.histBounded d m hm r hr) hcl

theorem reachable_histInv (s : SysState) (hs : Reachable s) : HistInv s := by
  induction hs with
  | init =>
      constructor
      · intro d m hm
        simp [init, findKey] at hm
      · intro d m hm
        simp [init, findKey] at hm
      · intro d m hm
        simp [init, findKey] at hm
  | step hr hcl ih => exact histInv_step _ _ _ hcl ih

theorem reachable_nodup_keys (s : SysState) (hs : Reachable s) :
    (s.monitors_db.map Prod.fst).Nodup := by
  induction hs with
  | init => simp [init]
  | step hr hc ih =>
      rcases step_monitors_db_cases _ _ _ with hcase | ⟨k, v, hcase⟩
      · rw [hcase]; exact ih
      · rw [hcase]; exact nodup_keys_setKey _ k v ih

/-! ### A down record is frozen -/

theorem down_record_preserved (s : SysState) (d : String) (m : Monitor)
    (hm : findKey s.monitors_db d = some m) (hdown : m.status = .down)
    (e : Event) (now : Nat) :
    findKey (step s e now).monitors_db d = some m := by
  cases e with
  | register mc =>
      rcases hf : findKey s.monitors_db mc.id with _ | v
      · by_cases ht : mc.timeout ≤ 0
        · simp [step, create_monitor_invalid s mc now hf ht, hm]
        · have hne : d ≠ mc.id := by
            intro he
            rw [he, hf] at hm
            exact Option.noConfusion hm
          simp [step, create_monitor_ok s mc now hf (lt_of_not_le ht),
            findKey_setKey_ne _ _ _ _ hne, hm]
      · simp [step, create_monitor_found s mc now (by simp [hf]), hm]
  | heartbeat d2 =>
      rcases hf : findKey s.monitors_db d2 with _ | mon
      · simp [step, heartbeat_not_found s d2 now hf, hm]
      · by_cases hst : mon.status = .down
        · simp [step, heartbeat_down s d2 now mon hf hst, hm]
        · have hne : d ≠ d2 := by
            intro he
            rw [he, hf] at hm
            injection hm with hm2
            exact hst (hm2 ▸ hdown)
          simp [step, heartbeat_ok s d2 now mon hf hst,
            findKey_setKey_ne _ _ _ _ hne, cancelActive_monitors_db, hm]
  | pause d2 =>
      rcases hf : findKey s.monitors_db d2 with _ | mon
      · simp [step, pause_not_found s d2 hf, hm]
      · by_cases hst : mon.status = .down
        · simp [step, pause_down s d2 mon hf hst, hm]
        · by_cases hst2 : mon.status = .paused
          · simp [step, pause_already s d2 mon hf hst2, hm]
          · have hact : mon.status = .active := by
              cases hs3 : mon.status
              · rfl
              · exact absurd hs3 hst2
              · exact absurd hs3 hst
            have hne : d ≠ d2 := by
              intro he
              rw [he, hf] at hm
              injection hm with hm2
              exact hst (hm2 ▸ hdown)
            simp [step, pause_ok s d2 mon hf hact,
              findKey_setKey_ne _ _ _ _ hne, cancelActive_monitors_db, hm]
  | expire tid =>
      rcases ht : s.tasks[tid]? with _ | t
      · simp [step, expire_missing s tid now ht, hm]
      · by_cases hdead : t.cancelled = true ∨ t.fired = true
        · simp [step, expire_dead s tid now t ht hdead, hm]
        · push_neg at hdead
          simp only [Ne, Bool.not_eq_true] at hdead
          rcases hmm : findKey s.monitors_db t.device_id with _ | mon
          · simp [step, expire_live_orphan s tid now t ht hdead.1 hdead.2 hmm, hm]
          · by_cases hst : mon.status = .active
            · have hne : d ≠ t.device_id := by
                intro he
                rw [he, hmm] at hm
                injection hm with hm2
                rw [hm2, hdown] at hst
                exact Status.noConfusion hst
              simp [step, expire_live_active s tid now t mon ht hdead.1 hdead.2 hmm hst,
                findKey_setKey_ne _ _ _ _ hne, hm]
            · simp [step,
                expire_live_not_active s tid now t mon ht hdead.1 hdead.2 hmm hst, hm]

theorem down_record_preserved_run (d : String) (m : Monitor)
    (hdown : m.status = .down) :
    ∀ (tr : List (Event × Nat)) (s : SysState),
      findKey s.monitors_db d = some m →
      findKey (run s tr).monitors_db d = some m := by
  intro tr
  induction tr with
  | nil => intro s hm; exact hm
  | cons en tr2 ih =>
      intro s hm
      exact ih _ (down_record_preserved s d m hm hdown en.1 en.2)

/-! ### Claim theorems -/

/-- C1: when a countdown completes without having been cancelled (and has
not completed before), the expiry body re-reads the monitor: if the record
still exists with status `active`, it sets the status to `down` and appends
exactly one Alert Sink invocation `(device_id, alert_email, timestamp)`; if
the status is no longer `active`, or the record is absent, neither the
monitor store nor the alert log changes. -/
theorem c1_expiry_callback (s : SysState) (tid : Nat) (now : Nat) (t : TimerTask)
    (ht : s.tasks[tid]? = some t) (hc : t.cancelled = false) (hf : t.fired = false) :
    (∀ m, findKey s.monitors_db t.device_id = some m → m.status = Status.active →
      (expire s tid now).monitors_db =
        setKey s.monitors_db t.device_id { m with status := Status.down } ∧
      (expire s tid now).alerts = s.alerts ++ [(t.device_id, m.alert_email, now)]) ∧
    (∀ m, findKey s.monitors_db t.device_id = some m → m.status ≠ Status.active →
      (expire s tid now).monitors_db = s.monitors_db ∧
      (expire s tid now).alerts = s.alerts) ∧
    (findKey s.monitors_db t.device_id = none →
      (expire s tid now).monitors_db = s.monitors_db ∧
      (expire s tid now).alerts = s.alerts) := by
  refine ⟨?_, ?_, ?_⟩
  · intro m hm hst
    rw [expire_live_active s tid now t m ht hc hf hm hst]
    exact ⟨rfl, rfl⟩
  · intro m hm hst
    rw [expire_live_not_active s tid now t m ht hc hf hm hst]
    exact ⟨rfl, rfl⟩
  · intro hm
    rw [expire_live_orphan s tid now t ht hc hf hm]
    exact ⟨rfl, rfl⟩

/-- Closed witness for C1 at the concrete one-monitor state `regState`. -/
theorem c1_expiry_callback_witness :
    (expire regState 0 7).monitors_db =
      setKey regState.monitors_db "d1" { mon1 with status := Status.down } ∧
    (expire regState 0 7).alerts = regState.alerts ++ [("d1", "a@x.com", 7)] :=
  (c1_expiry_callback regState 0 7 task1 (by decide) rfl rfl).1 mon1
    (by decide) rfl

/-- C2: `down` is terminal.  If a monitor's record is `down` then after any
further event sequence the record is bitwise unchanged (status,
`last_heartbeat` and `heartbeat_history` included), every heartbeat call
for it fails with the 400 already-down error, and every pause call for it
fails with its 400 already-down error. -/
theorem c2_down_is_terminal (s : SysState) (d : String) (m : Monitor)
    (hm : findKey s.monitors_db d = some m) (hdown : m.status = Status.down) :
    ∀ tr : List (Event × Nat),
      findKey (run s tr).monitors_db d = some m ∧
      (∀ now, (heartbeat (run s tr) d now).1 =
        Except.error { status_code := 400, detail := hb_down_detail d }) ∧
      (pause_monitor (run s tr) d).1 =
        Except.error { status_code := 400, detail := pause_down_detail d } := by
  intro tr
  have hrec := down_record_preserved_run d m hdown tr s hm
  refine ⟨hrec, ?_, ?_⟩
  · intro now
    rw [heartbeat_down (run s tr) d now m hrec hdown]
  · rw [pause_down (run s tr) d m hrec hdown]

/-- Closed witness for C2 at the concrete down state `downState`, against a
heartbeat-then-pause trace. -/
theorem c2_down_is_terminal_witness :
    findKey (run downState [(.heartbeat "d1", 8), (.pause "d1", 9)]).monitors_db "d1" =
      some mon1Down ∧
    (heartbeat (run downState [(.heartbeat "d1", 8), (.pause "d1", 9)]) "d1" 10).1 =
      Except.error { status_code := 400, detail := hb_down_detail "d1" } ∧
    (pause_monitor (run downState [(.heartbeat "d1", 8), (.pause "d1", 9)]) "d1").1 =
      Except.error { status_code := 400, detail := pause_down_detail "d1" } := by
  have h := c2_down_is_terminal downState "d1" mon1Down (by decide) rfl
    [(.heartbeat "d1", 8), (.pause "d1", 9)]
  exact ⟨h.1, h.2.1 10, h.2.2⟩

/-- C8: when the id is already registered and the submitted timeout is also
invalid (≤ 0), registration fails with the duplicate-id error, not the
invalid-timeout error: the duplicate check runs first. -/
theorem c8_duplicate_checked_first (s : SysState) (mc : MonitorCreate) (v : Monitor)
    (now : Nat) (h : findKey s.monitors_db mc.id = some v) (ht : mc.timeout ≤ 0) :
    (create_monitor s mc now).1 =
      Except.error { status_code := 400, detail := dup_detail mc.id } := by
  rw [create_monitor_found s mc now (by simp [h])]

/-- Closed witness for C8: re-registering `d1` with timeout 0. -/
theorem c8_duplicate_checked_first_witness :
    (create_monitor regState { id := "d1", timeout := 0, alert_email := "c@x.com" } 9).1 =
      Except.error { status_code := 400, detail := dup_detail "d1" } :=
  c8_duplicate_checked_first regState
    { id := "d1", timeout := 0, alert_email := "c@x.com" } mon1 9 (by decide) (by decide)

/-- C3: registration succeeds iff the id is unregistered and the timeout is
positive.  On success it returns the 201 payload, stores exactly the fresh
`active` record (`created_at` stamped, `last_heartbeat` absent, empty
history) and starts a countdown of the given timeout.  A duplicate id
fails with the 400 duplicate-id error, leaves the state untouched and (in
any reachable state) leaves exactly one record under that id; a
non-positive timeout on a fresh id fails with the 400 invalid-timeout
error and leaves the state untouched. -/
theorem c3_register (s : SysState) (hs : Reachable s) (mc : MonitorCreate) (now : Nat) :
    (isOkB (create_monitor s mc now).1 = true ↔
      (findKey s.monitors_db mc.id = none ∧ 0 < mc.timeout)) ∧
    (findKey s.monitors_db mc.id = none → 0 < mc.timeout →
      ((create_monitor s mc now).1 =
        Except.ok { message := created_msg mc.id, device_id := mc.id,
                    timeout := mc.timeout, status := "active" } ∧
       create_status_code = 201 ∧
       findKey (create_monitor s mc now).2.monitors_db mc.id =
         some { id := mc.id, timeout := mc.timeout, alert_email := mc.alert_email,
                status := Status.active, created_at := now, last_heartbeat := none,
                heartbeat_history := [] } ∧
       findKey (create_monitor s mc now).2.active_tasks mc.id = some s.tasks.length ∧
       (create_monitor s mc now).2.tasks =
         s.tasks ++ [{ device_id := mc.id, timeout := mc.timeout,
                       cancelled := false, fired := false }])) ∧
    (∀ v, findKey s.monitors_db mc.id = some v →
      ((create_monitor s mc now).1 =
        Except.error { status_code := 400, detail := dup_detail mc.id } ∧
       (create_monitor s mc now).2 = s ∧
       countKey (create_monitor s mc now).2.monitors_db mc.id = 1)) ∧
    (findKey s.monitors_db mc.id = none → mc.timeout ≤ 0 →
      ((create_monitor s mc now).1 =
        Except.error { status_code := 400, detail := invalid_timeout_detail } ∧
       (create_monitor s mc now).2 = s)) := by
  refine ⟨⟨?_, ?_⟩, ?_, ?_, ?_⟩
  · intro hok
    rcases hf : findKey s.monitors_db mc.id with _ | v
    · by_cases ht : mc.timeout ≤ 0
      · rw [create_monitor_invalid s mc now hf ht] at hok
        exact absurd hok (by simp [isOkB])
      · exact ⟨rfl, lt_of_not_le ht⟩
    · rw [create_monitor_found s mc now (by simp [hf])] at hok
      exact absurd hok (by simp [isOkB])
  · rintro ⟨hf, ht⟩
    rw [create_monitor_ok s mc now hf ht]
    rfl
  · intro hf ht
    rw [create_monitor_ok s mc now hf ht]
    refine ⟨rfl, rfl, ?_, ?_, rfl⟩
    · simp [findKey_setKey_self]
    · simp [findKey_setKey_self]
  · intro v hv
    rw [create_monitor_found s mc now (by simp [hv])]
    refine ⟨rfl, rfl, ?_⟩
    exact countKey_eq_one_of_nodup s.monitors_db mc.id
      (reachable_nodup_keys s hs) (by simp [hv])
  · intro hf ht
    rw [create_monitor_invalid s mc now hf ht]
    exact ⟨rfl, rfl⟩

/-- Closed witness for C3 at `regState`: a fresh registration succeeds and
a duplicate one fails, leaving one record. -/
theorem c3_register_witness :
    isOkB (create_monitor regState mcd2 3).1 = true ∧
    (create_monitor regState mcd1 3).2 = regState ∧
    countKey (create_monitor regState mcd1 3).2.monitors_db "d1" = 1 := by
  have h2 := c3_register regState
    (@Reachable.step init (.register mcd1) 0 Reachable.init (by decide)) mcd2 3
  have h1 := c3_register regState
    (@Reachable.step init (.register mcd1) 0 Reachable.init (by decide)) mcd1 3
  exact ⟨h2.1.2 ⟨by decide, by decide⟩, (h1.2.2.1 mon1 (by decide)).2.1,
    (h1.2.2.1 mon1 (by decide)).2.2⟩

/-- C4: a heartbeat on an `active` or `paused` monitor succeeds: it returns
the 200 payload, stores the record with status forced to `active`,
`last_heartbeat` set to the current instant and exactly one history entry
`{received_at := now, timer_reset_to := timeout}` appended (the record also
carries the constant `event := "heartbeat"` field), cancels the previously
installed countdown and installs a fresh full-length one; a heartbeat on an
unknown id fails with the 404 error. -/
theorem c4_heartbeat (s : SysState) (d : String) (now : Nat) :
    (∀ m, findKey s.monitors_db d = some m →
      m.status = Status.active ∨ m.status = Status.paused →
      ((heartbeat s d now).1 =
        Except.ok { message := hb_msg d, device_id := d, timeout := m.timeout,
                    last_heartbeat := now, status := "active" } ∧
       heartbeat_success_status = 200 ∧
       findKey (heartbeat s d now).2.monitors_db d =
         some { m with
                status := Status.active, last_heartbeat := some now,
                heartbeat_history := m.heartbeat_history ++
                  [{ received_at := now, event := "heartbeat",
                     timer_reset_to := m.timeout }] } ∧
       findKey (heartbeat s d now).2.active_tasks d = some s.tasks.length ∧
       (heartbeat s d now).2.tasks[s.tasks.length]? =
         some { device_id := d, timeout := m.timeout,
                cancelled := false, fired := false } ∧
       (∀ tid t, findKey s.active_tasks d = some tid → s.tasks[tid]? = some t →
         t.fired = false →
         (heartbeat s d now).2.tasks[tid]? = some { t with cancelled := true }))) ∧
    (findKey s.monitors_db d = none →
      (heartbeat s d now).1 =
        Except.error { status_code := 404, detail := hb_not_found_detail d }) := by
  constructor
  · intro m hm hst
    have hnd : m.status ≠ Status.down := by
      rcases hst with h1 | h1 <;> simp [h1]
    rw [heartbeat_ok s d now m hm hnd]
    refine ⟨rfl, rfl, ?_, ?_, ?_, ?_⟩
    · simp [cancelActive_monitors_db, findKey_setKey_self]
    · simp [cancelActive_active_tasks, cancelActive_tasks_length, findKey_setKey_self]
    · show ((cancelActive s d).tasks ++ [_])[s.tasks.length]? = _
      rw [← cancelActive_tasks_length s d, List.getElem?_concat_length]
    · intro tid t htid htt hf
      have hcA : (cancelActive s d).tasks = cancelTask s.tasks tid := by
        unfold cancelActive
        rw [htid]
      have hlt : tid < s.tasks.length := by
        rcases List.getElem?_eq_some.1 htt with ⟨hl, _⟩
        exact hl
      show ((cancelActive s d).tasks ++ [_])[tid]? = _
      rw [hcA, getElem_append_lt _ _ tid (by rw [cancelTask_length]; exact hlt),
        cancelTask_getElem_self s.tasks tid t htt]
      simp [hf]
  · intro h
    rw [heartbeat_not_found s d now h]

/-- Closed witness for C4 at `regState`: a heartbeat at instant 4. -/
theorem c4_heartbeat_witness :
    (heartbeat regState "d1" 4).1 =
      Except.ok { message := hb_msg "d1", device_id := "d1", timeout := 5,
                  last_heartbeat := 4, status := "active" } ∧
    (heartbeat regState "d1" 4).2.tasks[0]? = some { task1 with cancelled := true } := by
  have h := (c4_heartbeat regState "d1" 4).1 mon1 (by decide) (Or.inl rfl)
  exact ⟨h.1, h.2.2.2.2.2 0 task1 (by decide) (by decide) rfl⟩

theorem histLen_congr (s1 s2 : SysState) (d : String)
    (h : s1.monitors_db = s2.monitors_db) : histLen s1 d = histLen s2 d := by
  rw [histLen, histLen, h]

theorem histLen_step (s : SysState) (e : Event) (now : Nat) (d : String) :
    histLen (step s e now) d = histLen s d +
      (match e with
       | .heartbeat d2 =>
           if d2 = d ∧ isOkB (heartbeat s d2 now).1 = true then 1 else 0
       | _ => 0) := by
  cases e with
  | register mc =>
      show histLen (step s (.register mc) now) d = histLen s d + 0
      rw [Nat.add_zero]
      rcases hf : findKey s.monitors_db mc.id with _ | v
      · by_cases ht2 : mc.timeout ≤ 0
        · exact histLen_congr _ _ d
            (by simp [step, create_monitor_invalid s mc now hf ht2])
        · have hdb : (step s (.register mc) now).monitors_db =
              setKey s.monitors_db mc.id
                { id := mc.id, timeout := mc.timeout, alert_email := mc.alert_email,
                  status := .active, created_at := now, last_heartbeat := none,
                  heartbeat_history := [] } := by
            simp [step, create_monitor_ok s mc now hf (lt_of_not_le ht2)]
          rw [histLen, histLen, hdb, findKey_setKey]
          by_cases hd : d = mc.id
          · rw [if_pos hd, hd, hf]
            rfl
          · rw [if_neg hd]
      · exact histLen_congr _ _ d
          (by simp [step, create_monitor_found s mc now (by simp [hf])])
  | heartbeat d2 =>
      show histLen (step s (.heartbeat d2) now) d = histLen s d +
        (if d2 = d ∧ isOkB (heartbeat s d2 now).1 = true then 1 else 0)
      rcases hf : findKey s.monitors_db d2 with _ | mon
      · have hcond : ¬(d2 = d ∧ isOkB (heartbeat s d2 now).1 = true) := by
          rintro ⟨_, hok⟩
          rw [heartbeat_not_found s d2 now hf] at hok
          simp [isOkB] at hok
        rw [if_neg hcond, Nat.add_zero]
        exact histLen_congr _ _ d (by simp [step, heartbeat_not_found s d2 now hf])
      · by_cases hst : mon.status = .down
        · have hcond : ¬(d2 = d ∧ isOkB (heartbeat s d2 now).1 = true) := by
            rintro ⟨_, hok⟩
            rw [heartbeat_down s d2 now mon hf hst] at hok
            simp [isOkB] at hok
          rw [if_neg hcond, Nat.add_zero]
          exact histLen_congr _ _ d (by simp [step, heartbeat_down s d2 now mon hf hst])
        · have hdb : (step s (.heartbeat d2) now).monitors_db =
              setKey s.monitors_db d2
                { mon with
                  status := .active, last_heartbeat := some now,
                  heartbeat_history := mon.heartbeat_history ++
                    [{ received_at := now, event := "heartbeat",
                       timer_reset_to := mon.timeout }] } := by
            simp [step, heartbeat_ok s d2 now mon hf hst, cancelActive_monitors_db]
          have hokv : isOkB (heartbeat s d2 now).1 = true := by
            rw [heartbeat_ok s d2 now mon hf hst]
            rfl
          rw [histLen, histLen, hdb, findKey_setKey]
          by_cases hd : d2 = d
          · subst hd
            rw [if_pos rfl, hf]
            simp [hokv, List.length_append]
          · rw [if_neg (fun he => hd he.symm)]
            simp [hd]
  | pause d2 =>
      show histLen (step s (.pause d2) now) d = histLen s d + 0
      rw [Nat.add_zero]
      rcases hf : findKey s.monitors_db d2 with _ | mon
      · exact histLen_congr _ _ d (by simp [step, pause_not_found s d2 hf])
      · by_cases hst : mon.status = .down
        · exact histLen_congr _ _ d (by simp [step, pause_down s d2 mon hf hst])
        · by_cases hst2 : mon.status = .paused
          · exact histLen_congr _ _ d (by simp [step, pause_already s d2 mon hf hst2])
          · have hact : mon.status = .active := by
              cases hs3 : mon.status
              · rfl
              · exact absurd hs3 hst2
              · exact absurd hs3 hst
            have hdb : (step s (.pause d2) now).monitors_db =
                setKey s.monitors_db d2 { mon with status := .paused } := by
              simp [step, pause_ok s d2 mon hf hact, cancelActive_monitors_db]
            rw [histLen, histLen, hdb, findKey_setKey]
            by_cases hd : d = d2
            · rw [if_pos hd, hd, hf]
            · rw [if_neg hd]
  | expire tid =>
      show histLen (step s (.expire tid) now) d = histLen s d + 0
      rw [Nat.add_zero]
      rcases ht : s.tasks[tid]? with _ | t
      · exact histLen_congr _ _ d (by simp [step, expire_missing s tid now ht])
      · by_cases hdead : t.cancelled = true ∨ t.fired = true
        · exact histLen_congr _ _ d (by simp [step, expire_dead s tid now t ht hdead])
        · push_neg at hdead
          simp only [Ne, Bool.not_eq_true] at hdead
          rcases hmm : findKey s.monitors_db t.device_id with _ | mon
          · exact histLen_congr _ _ d
              (by simp [step, expire_live_orphan s tid now t ht hdead.1 hdead.2 hmm])
          · by_cases hst : mon.status = .active
            · have hdb : (step s (.expire tid) now).monitors_db =
                  setKey s.monitors_db t.device_id { mon with status := .down } := by
                simp [step,
                  expire_live_active s tid now t mon ht hdead.1 hdead.2 hmm hst]
              rw [histLen, histLen, hdb, findKey_setKey]
              by_cases hd : d = t.device_id
              · rw [if_pos hd, hd, hmm]
              · rw [if_neg hd]
            · exact histLen_congr _ _ d
                (by simp [step,
                  expire_live_not_active s tid now t mon ht hdead.1 hdead.2 hmm hst])

theorem run_histLen (d : String) :
    ∀ (tr : List (Event × Nat)) (s : SysState),
      histLen (run s tr) d = histLen s d + countAccepted s d tr := by
  intro tr
  induction tr with
  | nil =>
      intro s
      simp [run, countAccepted]
  | cons en tr2 ih =>
      intro s
      rw [run, countAccepted, ih (step s en.1 en.2), histLen_step s en.1 en.2 d]
      omega

theorem reachable_run :
    ∀ (tr : List (Event × Nat)) (s : SysState), Reachable s →
      timesMonoB s.clock tr = true → Reachable (run s tr) := by
  intro tr
  induction tr with
  | nil =>
      intro s hs _
      exact hs
  | cons en tr2 ih =>
      intro s hs hmono
      rw [timesMonoB, Bool.and_eq_true, decide_eq_true_eq] at hmono
      rw [run]
      apply ih (step s en.1 en.2)
      · exact Reachable.step hs hmono.1
      · rw [step_clock]
        exact hmono.2

theorem cancelActive_cancelled_fwd (s : SysState) (d2 : String) (j : Nat)
    (t0 : TimerTask) (h : s.tasks[j]? = some t0) (hc : t0.cancelled = true) :
    ∃ t' : TimerTask, (cancelActive s d2).tasks[j]? = some t' ∧ t'.cancelled = true := by
  rcases hA : findKey s.active_tasks d2 with _ | tid
  · rw [cancelActive_of_none s d2 hA]
    exact ⟨t0, h, hc⟩
  · rw [cancelActive_tasks_of_some s d2 tid hA, cancelTask_getElem_eq]
    by_cases hj : j = tid
    · rw [if_pos hj, h, Option.map_some']
      by_cases hfr : t0.fired = true
      · rw [if_pos hfr]
        exact ⟨t0, rfl, hc⟩
      · rw [if_neg hfr]
        exact ⟨{ t0 with cancelled := true }, rfl, rfl⟩
    · rw [if_neg hj]
      exact ⟨t0, h, hc⟩

theorem markFired_cancelled_fwd (ts : List TimerTask) (tid j : Nat)
    (t0 : TimerTask) (h : ts[j]? = some t0) (hc : t0.cancelled = true) :
    ∃ t' : TimerTask, (markFired ts tid)[j]? = some t' ∧ t'.cancelled = true := by
  rw [markFired_getElem_eq]
  by_cases hj : j = tid
  · rw [if_pos hj, h, Option.map_some']
    exact ⟨{ t0 with fired := true }, rfl, hc⟩
  · rw [if_neg hj]
    exact ⟨t0, h, hc⟩

theorem step_cancelled_monotone (s : SysState) (e : Event) (now : Nat) (j : Nat)
    (t : TimerTask) (h : s.tasks[j]? = some t) (hc : t.cancelled = true) :
    ∃ t' : TimerTask, (step s e now).tasks[j]? = some t' ∧ t'.cancelled = true := by
  have hlt : j < s.tasks.length := by
    rcases List.getElem?_eq_some.1 h with ⟨hl, _⟩
    exact hl
  cases e with
  | register mc =>
      rcases hf : findKey s.monitors_db mc.id with _ | v
      · by_cases ht2 : mc.timeout ≤ 0
        · have htk : (step s (.register mc) now).tasks = s.tasks := by
            simp [step, create_monitor_invalid s mc now hf ht2]
          rw [htk]
          exact ⟨t, h, hc⟩
        · have htk : (step s (.register mc) now).tasks =
              s.tasks ++ [{ device_id := mc.id, timeout := mc.timeout,
                            cancelled := false, fired := false }] := by
            simp [step, create_monitor_ok s mc now hf (lt_of_not_le ht2)]
          rw [htk, getElem_append_lt _ _ j hlt]
          exact ⟨t, h, hc⟩
      · have htk : (step s (.register mc) now).tasks = s.tasks := by
          simp [step, create_monitor_found s mc now (by simp [hf])]
        rw [htk]
        exact ⟨t, h, hc⟩
  | heartbeat d2 =>
      rcases hf : findKey s.monitors_db d2 with _ | mon
      · have htk : (step s (.heartbeat d2) now).tasks = s.tasks := by
          simp [step, heartbeat_not_found s d2 now hf]
        rw [htk]
        exact ⟨t, h, hc⟩
      · by_cases hst : mon.status = .down
        · have htk : (step s (.heartbeat d2) now).tasks = s.tasks := by
            simp [step, heartbeat_down s d2 now mon hf hst]
          rw [htk]
          exact ⟨t, h, hc⟩
        · have htk : (step s (.heartbeat d2) now).tasks =
              (cancelActive s d2).tasks ++
                [{ device_id := d2, timeout := mon.timeout,
                   cancelled := false, fired := false }] := by
            simp [step, heartbeat_ok s d2 now mon hf hst]
          rcases cancelActive_cancelled_fwd s d2 j t h hc with ⟨t', ht', hc'⟩
          rw [htk, getElem_append_lt _ _ j (by rw [cancelActive_tasks_length]; exact hlt)]
          exact ⟨t', ht', hc'⟩
  | pause d2 =>
      rcases hf : findKey s.monitors_db d2 with _ | mon
      · have htk : (step s (.pause d2) now).tasks = s.tasks := by
          simp [step, pause_not_found s d2 hf]
        rw [htk]
        exact ⟨t, h, hc⟩
      · by_cases hst : mon.status = .down
        · have htk : (step s (.pause d2) now).tasks = s.tasks := by
            simp [step, pause_down s d2 mon hf hst]
          rw [htk]
          exact ⟨t, h, hc⟩
        · by_cases hst2 : mon.status = .paused
          · have htk : (step s (.pause d2) now).tasks = s.tasks := by
              simp [step, pause_already s d2 mon hf hst2]
            rw [htk]
            exact ⟨t, h, hc⟩
          · have hact : mon.status = .active := by
              cases hs3 : mon.status
              · rfl
              · exact absurd hs3 hst2
              · exact absurd hs3 hst
            have htk : (step s (.pause d2) now).tasks = (cancelActive s d2).tasks := by
              simp [step, pause_ok s d2 mon hf hact]
            rw [htk]
            exact cancelActive_cancelled_fwd s d2 j t h hc
  | expire tid =>
      rcases ht : s.tasks[tid]? with _ | t2
      · have htk : (step s (.expire tid) now).tasks = s.tasks := by
          simp [step, expire_missing s tid now ht]
        rw [htk]
        exact ⟨t, h, hc⟩
      · by_cases hdead : t2.cancelled = true ∨ t2.fired = true
        · have htk : (step s (.expire tid) now).tasks = s.tasks := by
            simp [step, expire_dead s tid now t2 ht hdead]
          rw [htk]
          exact ⟨t, h, hc⟩
        · push_neg at hdead
          simp only [Ne, Bool.not_eq_true] at hdead
          rcases hmm : findKey s.monitors_db t2.device_id with _ | mon
          · have htk : (step s (.expire tid) now).tasks = markFired s.tasks tid := by
              simp [step, expire_live_orphan s tid now t2 ht hdead.1 hdead.2 hmm]
            rw [htk]
            exact markFired_cancelled_fwd s.tasks tid j t h hc
          · by_cases hst : mon.status = .active
            · have htk : (step s (.expire tid) now).tasks = markFired s.tasks tid := by
                simp [step,
                  expire_live_active s tid now t2 mon ht hdead.1 hdead.2 hmm hst]
              rw [htk]
              exact markFired_cancelled_fwd s.tasks tid j t h hc
            · have htk : (step s (.expire tid) now).tasks = markFired s.tasks tid := by
                simp [step,
                  expire_live_not_active s tid now t2 mon ht hdead.1 hdead.2 hmm hst]
              rw [htk]
              exact markFired_cancelled_fwd s.tasks tid j t h hc

theorem run_cancelled_persists (j : Nat) :
    ∀ (tr : List (Event × Nat)) (s : SysState) (t : TimerTask),
      s.tasks[j]? = some t → t.cancelled = true →
      ∃ t' : TimerTask, (run s tr).tasks[j]? = some t' ∧ t'.cancelled = true := by
  intro tr
  induction tr with
  | nil =>
      intro s t h hc
      exact ⟨t, h, hc⟩
  | cons en tr2 ih =>
      intro s t h hc
      rcases step_cancelled_monotone s en.1 en.2 j t h hc with ⟨t', ht', hc'⟩
      exact ih (step s en.1 en.2) t' ht' hc'

/-- C5: race freedom and pause safety.  (1) If a heartbeat for a device is
accepted while some countdown handle `tid` is installed for it, that
countdown is cancelled by the heartbeat, stays cancelled along every
subsequent trace, and expiring a cancelled countdown never changes the
state — so that timeout episode can never take the monitor down.  (2) While
a monitor is paused, no expiry event appends an alert for it, and a
heartbeat always succeeds, turns it `active` again and installs a fresh
full-length live countdown. -/
theorem c5_race_and_pause (s : SysState) (hs : Reachable s) :
    (∀ (d : String) (now : Nat) (tid : Nat),
      findKey s.active_tasks d = some tid →
      isOkB (heartbeat s d now).1 = true →
      (∀ tr : List (Event × Nat),
        ∃ t' : TimerTask,
          (run (heartbeat s d now).2 tr).tasks[tid]? = some t' ∧
          t'.cancelled = true) ∧
      (∀ (s2 : SysState) (t2 : TimerTask) (now2 : Nat),
        s2.tasks[tid]? = some t2 → t2.cancelled = true →
        expire s2 tid now2 = s2)) ∧
    (∀ (d : String) (m : Monitor), findKey s.monitors_db d = some m →
      m.status = Status.paused →
      (∀ (tid : Nat) (now : Nat),
        ∀ a ∈ (expire s tid now).alerts, a ∈ s.alerts ∨ a.1 ≠ d) ∧
      (∀ now : Nat,
        isOkB (heartbeat s d now).1 = true ∧
        findKey (heartbeat s d now).2.monitors_db d =
          some { m with
                 status := Status.active, last_heartbeat := some now,
                 heartbeat_history := m.heartbeat_history ++
                   [{ received_at := now, event := "heartbeat",
                      timer_reset_to := m.timeout }] } ∧
        findKey (heartbeat s d now).2.active_tasks d = some s.tasks.length ∧
        (heartbeat s d now).2.tasks[s.tasks.length]? =
          some { device_id := d, timeout := m.timeout,
                 cancelled := false, fired := false })) := by
  have I := reachable_tasksInv s hs
  constructor
  · intro d now tid hA hok
    rcases hf : findKey s.monitors_db d with _ | mon
    · rw [heartbeat_not_found s d now hf] at hok
      exact absurd hok (by simp [isOkB])
    · by_cases hst : mon.status = .down
      · rw [heartbeat_down s d now mon hf hst] at hok
        exact absurd hok (by simp [isOkB])
      · rcases I.activeValid d tid hA with ⟨t0, ht0, hdev⟩
        have hlt : tid < s.tasks.length := by
          rcases List.getElem?_eq_some.1 ht0 with ⟨hl, _⟩
          exact hl
        have hfr : t0.fired = false := by
          by_cases hfr2 : t0.fired = true
          · exfalso
            rcases I.firedInstalled d tid t0 hA ht0 hfr2 with ⟨m0, hm0, hdown⟩
            rw [hf] at hm0
            injection hm0 with hm2
            rw [← hm2] at hdown
            exact hst hdown
          · exact Bool.not_eq_true t0.fired |>.mp hfr2
        have hcancelled :
            (heartbeat s d now).2.tasks[tid]? = some { t0 with cancelled := true } := by
          rw [heartbeat_ok s d now mon hf hst]
          show ((cancelActive s d).tasks ++ [_])[tid]? = _
          rw [cancelActive_tasks_of_some s d tid hA,
            getElem_append_lt _ _ tid (by rw [cancelTask_length]; exact hlt),
            cancelTask_getElem_self s.tasks tid t0 ht0]
          rw [hfr]
          rfl
        constructor
        · intro tr
          exact run_cancelled_persists tid tr (heartbeat s d now).2
            { t0 with cancelled := true } hcancelled rfl
        · intro s2 t2 now2 ht2 hc2
          exact expire_dead s2 tid now2 t2 ht2 (Or.inl hc2)
  · intro d m hm hp
    constructor
    · intro tid now a ha
      rcases ht : s.tasks[tid]? with _ | t
      · rw [expire_missing s tid now ht] at ha
        exact Or.inl ha
      · by_cases hdead : t.cancelled = true ∨ t.fired = true
        · rw [expire_dead s tid now t ht hdead] at ha
          exact Or.inl ha
        · push_neg at hdead
          simp only [Ne, Bool.not_eq_true] at hdead
          have hlive : t.live = true := by
            rw [TimerTask.live, hdead.1, hdead.2]
            rfl
          rcases hmm : findKey s.monitors_db t.device_id with _ | mon
          · rw [expire_live_orphan s tid now t ht hdead.1 hdead.2 hmm] at ha
            exact Or.inl ha
          · by_cases hst : mon.status = .active
            · rw [expire_live_active s tid now t mon ht hdead.1 hdead.2 hmm hst] at ha
              have hdne : t.device_id ≠ d := by
                intro he
                have h2 := (I.liveIffActive d m hm).2 ⟨tid, t, ht, he, hlive⟩
                rw [hp] at h2
                exact Status.noConfusion h2
              rcases List.mem_append.1 ha with ha1 | ha2
              · exact Or.inl ha1
              · right
                have h3 : a = (t.device_id, mon.alert_email, now) := by
                  simpa using ha2
                rw [h3]
                exact hdne
            · rw [expire_live_not_active s tid now t mon ht hdead.1 hdead.2 hmm hst] at ha
              exact Or.inl ha
    · intro now
      have hst : m.status ≠ Status.down := by
        rw [hp]
        simp
      rw [heartbeat_ok s d now m hm hst]
      refine ⟨rfl, ?_, ?_, ?_⟩
      · simp [cancelActive_monitors_db, findKey_setKey_self]
      · simp [cancelActive_active_tasks, cancelActive_tasks_length, findKey_setKey_self]
      · show ((cancelActive s d).tasks ++ [_])[s.tasks.length]? = _
        rw [← cancelActive_tasks_length s d, List.getElem?_concat_length]

/-- Closed witness for C5: the registration countdown of `d1` is cancelled
by the accepted heartbeat and stays cancelled after a later expiry attempt,
and the paused `d1` produces no alert when its old task index expires. -/
theorem c5_race_and_pause_witness :
    (∃ t' : TimerTask,
      (run (heartbeat regState "d1" 2).2 [(.expire 0, 3)]).tasks[0]? = some t' ∧
      t'.cancelled = true) ∧
    (∀ a ∈ (expire pausedState 0 9).alerts, a ∈ pausedState.alerts ∨ a.1 ≠ "d1") := by
  have hreg := @Reachable.step init (.register mcd1) 0 Reachable.init (by decide)
  have h1 := c5_race_and_pause regState hreg
  have h2 := c5_race_and_pause pausedState
    (@Reachable.step regState (.pause "d1") 1 hreg (by decide))
  exact ⟨(h1.1 "d1" 2 0 (by decide) (by decide)).1 [(.expire 0, 3)],
    (h2.2 "d1" mon1Paused (by decide) rfl).1 0 9⟩

/-- C6: at every reachable state, a live (uncancelled, uncompleted)
countdown task exists for a monitor iff its status is `active`; `paused`
and `down` monitors have no live task; and there is never more than one
live countdown per device — any two live tasks of the same device are the
same task (installing a new countdown first cancels the previous handle,
so only the currently installed one can be live). -/
theorem c6_live_handle_iff_active (s : SysState) (hs : Reachable s) :
    (∀ (d : String) (m : Monitor), findKey s.monitors_db d = some m →
      (m.status = Status.active ↔ LiveFor s d)) ∧
    (∀ (d : String) (m : Monitor), findKey s.monitors_db d = some m →
      m.status = Status.paused ∨ m.status = Status.down → ¬ LiveFor s d) ∧
    (∀ (tid1 tid2 : Nat) (t1 t2 : TimerTask),
      s.tasks[tid1]? = some t1 → s.tasks[tid2]? = some t2 →
      t1.live = true → t2.live = true → t1.device_id = t2.device_id →
      tid1 = tid2) := by
  have I := reachable_tasksInv s hs
  refine ⟨I.liveIffActive, ?_, ?_⟩
  · intro d m hm hps hLive
    have h2 := (I.liveIffActive d m hm).2 hLive
    rcases hps with h1 | h1 <;> rw [h1] at h2 <;> exact Status.noConfusion h2
  · intro tid1 tid2 t1 t2 h1 h2 hl1 hl2 hdev
    have c1 := I.liveIsCurrent tid1 t1 h1 hl1
    have c2 := I.liveIsCurrent tid2 t2 h2 hl2
    rw [hdev] at c1
    rw [c2] at c1
    injection c1 with c3
    exact c3.symm

/-- Closed witness for C6: `d1` has a live handle right after registration,
and none once paused. -/
theorem c6_live_handle_iff_active_witness :
    LiveFor regState "d1" ∧ ¬ LiveFor pausedState "d1" := by
  have h1 := c6_live_handle_iff_active regState
    (@Reachable.step init (.register mcd1) 0 Reachable.init (by decide))
  have h2 := c6_live_handle_iff_active pausedState
    (@Reachable.step regState (.pause "d1") 1
      (@Reachable.step init (.register mcd1) 0 Reachable.init (by decide))
      (by decide))
  exact ⟨(h1.1 "d1" mon1 (by decide)).1 rfl,
    h2.2.1 "d1" mon1Paused (by decide) (Or.inl rfl)⟩

/-- C9: at every reachable state, `last_heartbeat` is absent exactly when
`heartbeat_history` is empty, and otherwise equals the `received_at` of the
most recently appended history record. -/
theorem c9_last_heartbeat_matches_history (s : SysState) (hs : Reachable s)
    (d : String) (m : Monitor) (hm : findKey s.monitors_db d = some m) :
    (m.last_heartbeat = none ↔ m.heartbeat_history = []) ∧
    (∀ r : HeartbeatRecord, m.heartbeat_history.getLast? = some r →
      m.last_heartbeat = some r.received_at) := by
  have H := reachable_histInv s hs
  have h1 := H.lastHB d m hm
  constructor
  · rw [h1]
    rcases hh : m.heartbeat_history with _ | ⟨a, l⟩
    · simp
    · simp
  · intro r hr
    rw [h1, hr]
    rfl

theorem main_create_monitor_eq (s : SysState) (mc : MonitorCreate) (now : Nat) :
    createRespMatch (main_create_monitor s mc now).1 (create_monitor s mc now).1 ∧
    (main_create_monitor s mc now).2 = (create_monitor s mc now).2 := by
  rcases hf : findKey s.monitors_db mc.id with _ | v
  · by_cases ht : mc.timeout ≤ 0
    · simp [main_create_monitor, create_monitor, hf, ht, createRespMatch]
    · simp [main_create_monitor, create_monitor, hf, ht, createRespMatch]
  · simp [main_create_monitor, create_monitor, hf, createRespMatch]

theorem main_heartbeat_eq (s : SysState) (d : String) (now : Nat) :
    hbRespMatch (main_heartbeat s d now).1 (heartbeat s d now).1 ∧
    (main_heartbeat s d now).2 = (heartbeat s d now).2 := by
  rcases hf : findKey s.monitors_db d with _ | mon
  · simp [main_heartbeat, heartbeat, hf, hbRespMatch]
  · by_cases hst : mon.status = .down
    · simp [main_heartbeat, heartbeat, hf, hst, hbRespMatch]
    · simp [main_heartbeat, heartbeat, hf, hst, hbRespMatch]

theorem main_pause_monitor_eq (s : SysState) (d : String) :
    pauseRespMatch (main_pause_monitor s d).1 (pause_monitor s d).1 ∧
    (main_pause_monitor s d).2 = (pause_monitor s d).2 := by
  rcases hf : findKey s.monitors_db d with _ | mon
  · simp [main_pause_monitor, pause_monitor, hf, pauseRespMatch]
  · by_cases hst : mon.status = .down
    · simp [main_pause_monitor, pause_monitor, hf, hst, pauseRespMatch]
    · by_cases hst2 : mon.status = .paused
      · simp [main_pause_monitor, pause_monitor, hf, hst, hst2, pauseRespMatch]
      · simp [main_pause_monitor, pause_monitor, hf, hst, hst2, pauseRespMatch]

theorem main_expire_eq (s : SysState) (tid : Nat) (now : Nat) :
    main_expire s tid now = expire s tid now := rfl

theorem main_step_eq (s : SysState) (e : Event) (now : Nat) :
    main_step s e now = step s e now := by
  cases e with
  | register mc =>
      show { (main_create_monitor s mc now).2 with clock := now } =
        { (create_monitor s mc now).2 with clock := now }
      rw [(main_create_monitor_eq s mc now).2]
  | heartbeat d =>
      show { (main_heartbeat s d now).2 with clock := now } =
        { (heartbeat s d now).2 with clock := now }
      rw [(main_heartbeat_eq s d now).2]
  | pause d =>
      show { (main_pause_monitor s d).2 with clock := now } =
        { (pause_monitor s d).2 with clock := now }
      rw [(main_pause_monitor_eq s d).2]
  | expire tid =>
      show { main_expire s tid now with clock := now } =
        { expire s tid now with clock := now }
      rw [main_expire_eq s tid now]

/-- C10: the monolithic handlers of `main.py` and the modular ones of
`routes/monitors.py` + `timer.py` are behaviorally equivalent: on every
state and event they produce identical successor states (identical stored
record fields, tasks, handles and alert invocations), identical HTTP status
codes for every error, and identical non-message response fields — they
differ only in human-readable message text. -/
theorem c10_implementations_equivalent :
    (∀ (s : SysState) (e : Event) (now : Nat), main_step s e now = step s e now) ∧
    (∀ (s : SysState) (mc : MonitorCreate) (now : Nat),
      createRespMatch (main_create_monitor s mc now).1 (create_monitor s mc now).1 ∧
      (main_create_monitor s mc now).2 = (create_monitor s mc now).2) ∧
    (∀ (s : SysState) (d : String) (now : Nat),
      hbRespMatch (main_heartbeat s d now).1 (heartbeat s d now).1 ∧
      (main_heartbeat s d now).2 = (heartbeat s d now).2) ∧
    (∀ (s : SysState) (d : String),
      pauseRespMatch (main_pause_monitor s d).1 (pause_monitor s d).1 ∧
      (main_pause_monitor s d).2 = (pause_monitor s d).2) ∧
    (∀ (s : SysState) (tid : Nat) (now : Nat),
      main_expire s tid now = expire s tid now) :=
  ⟨main_step_eq, main_create_monitor_eq, main_heartbeat_eq,
    main_pause_monitor_eq, main_expire_eq⟩

/-- C7: along any monotonically timestamped trace from startup, every
monitor's `heartbeat_history` is chronologically ordered by `received_at`
and its length equals the number of heartbeat calls accepted for that
device along the trace; `GET /monitors/{id}/history` reports
`total_heartbeats` equal to that length; and a pause call never changes a
monitor's history. -/
theorem c7_history (tr : List (Event × Nat)) (hmono : timesMonoB 0 tr = true)
    (d : String) :
    (∀ m : Monitor, findKey (run init tr).monitors_db d = some m →
      List.Chain' (fun a b => a ≤ b)
        (m.heartbeat_history.map (fun r => r.received_at)) ∧
      m.heartbeat_history.length = countAccepted init d tr ∧
      (∀ r : HistoryResponse, get_monitor_history (run init tr) d = Except.ok r →
        r.total_heartbeats = m.heartbeat_history.length)) ∧
    (∀ (s2 : SysState) (m m' : Monitor), findKey s2.monitors_db d = some m →
      findKey (pause_monitor s2 d).2.monitors_db d = some m' →
      m'.heartbeat_history = m.heartbeat_history) := by
  have hreach : Reachable (run init tr) :=
    reachable_run tr init Reachable.init hmono
  have H := reachable_histInv _ hreach
  constructor
  · intro m hm
    refine ⟨H.histSorted d m hm, ?_, ?_⟩
    · have h2 : histLen (run init tr) d = m.heartbeat_history.length := by
        rw [histLen, hm]
      have h1 := run_histLen d tr init
      have h3 : histLen init d = 0 := rfl
      rw [h2, h3, Nat.zero_add] at h1
      exact h1
    · intro r hr
      have h4 : get_monitor_history (run init tr) d =
          Except.ok { device_id := d, status := m.status.str,
                      total_heartbeats := m.heartbeat_history.length,
                      first_heartbeat := m.heartbeat_history.head?.map
                        (fun r2 => r2.received_at),
                      last_heartbeat := m.last_heartbeat,
                      history := m.heartbeat_history } := by
        simp [get_monitor_history, hm]
      rw [h4] at hr
      injection hr with hr2
      rw [← hr2]
  · intro s2 m m' hm hm'
    rcases hf : findKey s2.monitors_db d with _ | mon
    · rw [hf] at hm
      exact Option.noConfusion hm
    · rw [hf] at hm
      injection hm with hm2
      by_cases hst : mon.status = .down
      · rw [pause_down s2 d mon hf hst] at hm'
        have hm'2 : findKey s2.monitors_db d = some m' := hm'
        rw [hf] at hm'2
        injection hm'2 with hm3
        rw [← hm2, ← hm3]
      · by_cases hst2 : mon.status = .paused
        · rw [pause_already s2 d mon hf hst2] at hm'
          have hm'2 : findKey s2.monitors_db d = some m' := hm'
          rw [hf] at hm'2
          injection hm'2 with hm3
          rw [← hm2, ← hm3]
        · have hact : mon.status = .active := by
            cases hs3 : mon.status
            · rfl
            · exact absurd hs3 hst2
            · exact absurd hs3 hst
          rw [pause_ok s2 d mon hf hact] at hm'
          have hm'2 : findKey
              (setKey (cancelActive s2 d).monitors_db d
                { mon with status := .paused }) d = some m' := hm'
          rw [cancelActive_monitors_db, findKey_setKey_self] at hm'2
          injection hm'2 with hm3
          rw [← hm2, ← hm3]

/-- Closed witness for C7: after register-then-heartbeat the history length
is the accepted count, and pausing `d1` keeps its history. -/
theorem c7_history_witness :
    ({ mon1 with
       status := Status.active, last_heartbeat := some 2,
       heartbeat_history := [{ received_at := 2, event := "heartbeat",
                               timer_reset_to := 5 }] } : Monitor).heartbeat_history.length =
      countAccepted init "d1" [(.register mcd1, 0), (.heartbeat "d1", 2)] ∧
    mon1Paused.heartbeat_history = mon1.heartbeat_history := by
  have h := c7_history [(.register mcd1, 0), (.heartbeat "d1", 2)] (by decide) "d1"
  refine ⟨?_, h.2 regState mon1 mon1Paused (by decide) (by decide)⟩
  exact (h.1
    { mon1 with
      status := Status.active, last_heartbeat := some 2,
      heartbeat_history := [{ received_at := 2, event := "heartbeat",
                              timer_reset_to := 5 }] } (by decide)).2.1

/-- Closed witness for C9 at the post-heartbeat state. -/
theorem c9_last_heartbeat_matches_history_witness :
    ({ mon1 with
       status := Status.active, last_heartbeat := some 4,
       heartbeat_history := [{ received_at := 4, event := "heartbeat",
                               timer_reset_to := 5 }] } : Monitor).last_heartbeat =
      some (4 : Nat) := by
  have h := c9_last_heartbeat_matches_history (step regState (.heartbeat "d1") 4)
    (@Reachable.step regState (.heartbeat "d1") 4
      (@Reachable.step init (.register mcd1) 0 Reachable.init (by decide))
      (by decide))
    "d1"
    { mon1 with
      status := Status.active, last_heartbeat := some 4,
      heartbeat_history := [{ received_at := 4, event := "heartbeat",
                              timer_reset_to := 5 }] }
    (by decide)
  exact h.2 { received_at := 4, event := "heartbeat", timer_reset_to := 5 } rfl

end PulseCheck
